import Mathlib

/-! Energy billing front end: session state and ledger workflows.

A shallow embedding of `src/src/App.jsx`: the React component `App` with its
four state cells (`energy`, `bill`, `loading`, `transactions`) and the
functions `fetchEnergyData`, `addTransaction`, `sendEnergyData`, `fetchBill`
and `payBill`.

Modelling conventions.

* A JavaScript number is a binary64 value, held here as the rational it equals,
  or `NaN` or an infinity; negative zero is identified with zero.  `Math.floor`
  is exact on such values.  A numeric string is rounded to the nearest binary64
  value, ties to even, as StringToNumber does.
* The telemetry service and the web3 library are external: each awaited call is
  answered by an oracle that either returns a value or throws a message.
* Every function returns the session state after it has settled together with
  the list of library calls it made, the values it wrote to `loading`, and the
  message it passed to `console.error`, if any.
-/

namespace App

/-! ## JavaScript values -/

/-- A JavaScript number value. -/
inductive JSNumber where
  | nan
  | posInf
  | negInf
  | fin (q : ℚ)
  deriving DecidableEq

/-- The values that can occur while reading the telemetry response: the result
of `JSON.parse` (never `undefined`) and the results of property access on it. -/
inductive JSValue where
  | undefined
  | null
  | bool (b : Bool)
  | num (x : JSNumber)
  | str (s : String)
  | arr (xs : List JSValue)
  | obj (ps : List (String × JSValue))

/-- `Math.floor`: the greatest integer not above the argument. -/
def mathFloor : JSNumber → JSNumber
  | .fin q => .fin (⌊q⌋ : ℤ)
  | x => x

/-- Truthiness of a number (ToBoolean): `NaN` and zero are falsy. -/
def JSNumber.truthy : JSNumber → Bool
  | .nan => false
  | .fin q => decide (q ≠ 0)
  | _ => true

/-- Truthiness of the `energy` state cell, which holds `null` or a number. -/
def truthy : Option JSNumber → Bool
  | none => false
  | some x => x.truthy

/-! ### String to number conversion (StringToNumber) -/

/-- White space and line terminators stripped by StringToNumber. -/
def isStrWhiteSpace (c : Char) : Bool :=
  let n := c.toNat
  n = 9 || n = 10 || n = 11 || n = 12 || n = 13 || n = 32 || n = 160 ||
  n = 5760 || (8192 ≤ n && n ≤ 8202) || n = 8232 || n = 8233 || n = 8239 ||
  n = 8287 || n = 12288 || n = 65279

/-- Strip leading and trailing white space. -/
def trimWhiteSpace (cs : List Char) : List Char :=
  ((cs.dropWhile isStrWhiteSpace).reverse.dropWhile isStrWhiteSpace).reverse

/-- Value of a digit in the given radix, if it is one. -/
def digitValue (radix : Nat) (c : Char) : Option Nat :=
  let n := c.toNat
  let v :=
    if 48 ≤ n ∧ n ≤ 57 then some (n - 48)
    else if 97 ≤ n ∧ n ≤ 102 then some (n - 87)
    else if 65 ≤ n ∧ n ≤ 70 then some (n - 55)
    else none
  v.bind fun d => if d < radix then some d else none

/-- Value of a non-empty run of digits in the given radix. -/
def digitsValue (radix : Nat) : List Char → Option Nat
  | [] => none
  | cs => cs.foldl (fun acc c => acc.bind fun a => (digitValue radix c).map fun d => radix * a + d)
      (some 0)

/-- NonDecimalIntegerLiteral: `0x`, `0o` and `0b` literals, which take no sign. -/
def nonDecimalLiteral : List Char → Option Nat
  | '0' :: 'x' :: ds => digitsValue 16 ds
  | '0' :: 'X' :: ds => digitsValue 16 ds
  | '0' :: 'o' :: ds => digitsValue 8 ds
  | '0' :: 'O' :: ds => digitsValue 8 ds
  | '0' :: 'b' :: ds => digitsValue 2 ds
  | '0' :: 'B' :: ds => digitsValue 2 ds
  | _ => none

/-- ExponentPart, or nothing: the decimal exponent written after the digits. -/
def exponentPart : List Char → Option Int
  | [] => some 0
  | c :: rest =>
    if c = 'e' ∨ c = 'E' then
      match rest with
      | '+' :: ds => (digitsValue 10 ds).map Int.ofNat
      | '-' :: ds => (digitsValue 10 ds).map fun n => - Int.ofNat n
      | ds => (digitsValue 10 ds).map Int.ofNat
    else none

/-- StrUnsignedDecimalLiteral other than `Infinity`: digits with an optional
fraction and exponent, as a pair `(m, e)` standing for `m * 10 ^ e`. -/
def unsignedDecimal (cs : List Char) : Option (Nat × Int) :=
  let ip := cs.takeWhile Char.isDigit
  let r1 := cs.dropWhile Char.isDigit
  let fp := match r1 with
    | '.' :: t => t.takeWhile Char.isDigit
    | _ => []
  let r2 := match r1 with
    | '.' :: t => t.dropWhile Char.isDigit
    | _ => r1
  if ip = [] ∧ fp = [] then none
  else
    match digitsValue 10 ('0' :: (ip ++ fp)), exponentPart r2 with
    | some m, some e => some (m, e - fp.length)
    | _, _ => none

/-- A numeric string read as a literal, before it is turned into a number. -/
inductive NumericLiteral where
  | invalid
  | infinity (neg : Bool)
  | decimal (neg : Bool) (m : Nat) (e : Int)
  deriving DecidableEq

/-- StrDecimalLiteral after its optional sign: `Infinity` or a decimal. -/
def signedDecimal (neg : Bool) (body : List Char) : NumericLiteral :=
  if body = "Infinity".toList then .infinity neg
  else
    match unsignedDecimal body with
    | some (m, e) => .decimal neg m e
    | none => .invalid

/-- StringNumericLiteral: the literal spelled by the characters of a string.
The empty string, or white space only, reads as zero. -/
def readNumericLiteral (cs : List Char) : NumericLiteral :=
  match trimWhiteSpace cs with
  | [] => .decimal false 0 0
  | '+' :: body => signedDecimal false body
  | '-' :: body => signedDecimal true body
  | t =>
    match nonDecimalLiteral t with
    | some n => .decimal false n 0
    | none => signedDecimal false t

/-- Number of binary digits of a natural number, by repeated halving. -/
def bitLengthAux : Nat → Nat → Nat
  | 0, _ => 0
  | fuel + 1, n => if n = 0 then 0 else bitLengthAux fuel (n / 2) + 1

/-- Number of binary digits of a natural number. -/
def bitLength (n : Nat) : Nat := bitLengthAux n n

/-- The binary64 value nearest to the positive rational `n / d`, ties to even,
as a pair `(m, e)` standing for `m * 2 ^ e` with `m` at most `2 ^ 53` and `e`
not below -1074; `none` when the rounded value is beyond the largest finite
binary64 value. -/
def roundBinary64 (n d : Nat) : Option (Nat × Int) :=
  let e0 : Int := (bitLength n : Int) - (bitLength d : Int) - 52
  let q0 := if 0 ≤ e0 then n / (d * 2 ^ e0.toNat) else (n * 2 ^ (-e0).toNat) / d
  let e1 : Int := if q0 < 2 ^ 52 then e0 - 1 else if 2 ^ 53 ≤ q0 then e0 + 1 else e0
  let e : Int := if e1 < -1074 then -1074 else e1
  let num := if 0 ≤ e then n else n * 2 ^ (-e).toNat
  let den := if 0 ≤ e then d * 2 ^ e.toNat else d
  let q := num / den
  let r := num % den
  let m := if den < 2 * r ∨ (2 * r = den ∧ q % 2 = 1) then q + 1 else q
  if 971 < e ∨ (e = 971 ∧ 2 ^ 53 ≤ m) then none else some (m, e)

/-- The rational `m * 2 ^ e`. -/
def scale2 (m : Nat) (e : Int) : ℚ :=
  if 0 ≤ e then (m : ℚ) * (2 : ℚ) ^ e.toNat else (m : ℚ) / (2 : ℚ) ^ (-e).toNat

/-- The number a literal denotes: the binary64 value nearest to the decimal
`m * 10 ^ e`, an infinity when that is out of range; a string that is no
literal gives `NaN`. -/
def NumericLiteral.value : NumericLiteral → JSNumber
  | .invalid => .nan
  | .infinity neg => if neg then .negInf else .posInf
  | .decimal neg m e =>
    if m = 0 then .fin 0
    else
      let rounded :=
        if 0 ≤ e then roundBinary64 (m * 10 ^ e.toNat) 1 else roundBinary64 m (10 ^ (-e).toNat)
      match rounded with
      | none => if neg then .negInf else .posInf
      | some (mant, ex) => .fin (if neg then - scale2 mant ex else scale2 mant ex)

/-- StringToNumber. -/
def stringToNumber (s : String) : JSNumber := (readNumericLiteral s.toList).value

mutual
/-- Whether converting a value to a string throws a TypeError.  An object made
by `JSON.parse` prints through `Object.prototype.toString` unless it has an own
member named `toString`: that member is never callable, and the conversion
then throws.  An array prints its elements in turn. -/
def toStringThrows : JSValue → Bool
  | .obj ps => (ps.lookup "toString").isSome
  | .arr xs => anyToStringThrows xs
  | _ => false
/-- Whether printing some element of a list throws. -/
def anyToStringThrows : List JSValue → Bool
  | [] => false
  | x :: xs => toStringThrows x || anyToStringThrows xs
end

/-- The number read from the string an array prints as, when printing does
not throw: the elements joined with commas, `undefined` and `null` printing as
nothing.  The empty array gives the empty string, a one-element array the
string of its element, and a longer one contains a comma, which no numeric
literal does. -/
def arrayToNumber : List JSValue → JSNumber
  | [] => .fin 0
  | [.undefined] => .fin 0
  | [.null] => .fin 0
  | [.bool _] => .nan
  | [.num x] => x
  | [.str s] => stringToNumber s
  | [.arr ys] => arrayToNumber ys
  | [.obj _] => .nan
  | _ => .nan

/-- ToNumber, the coercion `Math.floor` applies to its argument.  An object or
array is first converted to a primitive, which throws a TypeError exactly when
printing it throws; a plain object prints as `[object Object]`. -/
def toNumber : JSValue → Except String JSNumber
  | .undefined => .ok .nan
  | .null => .ok (.fin 0)
  | .bool b => .ok (.fin (if b then 1 else 0))
  | .num x => .ok x
  | .str s => .ok (stringToNumber s)
  | .arr xs =>
    if anyToStringThrows xs then .error "Cannot convert object to primitive value"
    else .ok (arrayToNumber xs)
  | .obj ps =>
    if (ps.lookup "toString").isSome then .error "Cannot convert object to primitive value"
    else .ok .nan

/-- Property read `v.name` for the names the source uses (`power`, `value`),
neither of which any built-in prototype defines.  Reading a property of
`undefined` or `null` throws a TypeError. -/
def getField (v : JSValue) (name : String) : Except String JSValue :=
  match v with
  | .undefined => .error ("Cannot read properties of undefined (reading " ++ name ++ ")")
  | .null => .error ("Cannot read properties of null (reading " ++ name ++ ")")
  | .obj ps => .ok ((ps.lookup name).getD .undefined)
  | _ => .ok .undefined

/-- Indexed read `v[0]`. -/
def getIndex0 (v : JSValue) : Except String JSValue :=
  match v with
  | .undefined => .error "Cannot read properties of undefined (reading 0)"
  | .null => .error "Cannot read properties of null (reading 0)"
  | .arr xs => .ok (xs.head?.getD .undefined)
  | .str s => .ok (match s.toList with
      | [] => .undefined
      | c :: _ => .str (String.singleton c))
  | .obj ps => .ok ((ps.lookup "0").getD .undefined)
  | _ => .ok .undefined

/-! ## Session state -/

/-- The constants read from `import.meta.env`, and the host's number printing. -/
structure Env where
  /-- The constant `contractAddress`. -/
  contractAddress : String
  /-- The constant `privateKey`. -/
  privateKey : String
  /-- The constant `account`. -/
  account : String
  /-- Host printing of a number that is not an integer below `2 ^ 53` in
  magnitude (the shortest digits that read back as the same binary64). -/
  formatNumber : ℚ → String

/-- `Number.prototype.toString`: integers below `2 ^ 53` in magnitude print
their exact decimal digits, every other finite value as the host prints it. -/
def numberToString (env : Env) : JSNumber → String
  | .nan => "NaN"
  | .posInf => "Infinity"
  | .negInf => "-Infinity"
  | .fin q => if q.den = 1 ∧ q.num.natAbs < 2 ^ 53 then toString q.num else env.formatNumber q

/-- One entry of the transaction history, `{ type, amount, hash }`. -/
structure Transaction where
  type : String
  amount : String
  hash : String
  deriving DecidableEq

/-- The four `useState` cells of `App`. -/
structure Session where
  /-- The cell `energy`: `null` or a number. -/
  energy : Option JSNumber
  /-- The cell `bill`: `null` or the `uint256` returned by `getBill`. -/
  bill : Option Nat
  /-- The cell `loading`, the busy flag. -/
  loading : Bool
  /-- The cell `transactions`, newest first. -/
  transactions : List Transaction
  deriving DecidableEq

/-- The initial values passed to `useState`. -/
def Session.init : Session := ⟨none, none, false, []⟩

/-- The updater `addTransaction` hands to `setTransactions`: put the entry on
top and keep the first five. -/
def addTransaction (t : Transaction) (prev : List Transaction) : List Transaction :=
  (t :: prev).take 5

/-- The history after recording a sequence of entries in order. -/
def recordAll (es : List Transaction) (start : List Transaction) : List Transaction :=
  es.foldl (fun prev t => addTransaction t prev) start

/-! ## The external services -/

/-- What `fetch` resolved to: the status line and the result of
`response.json()`, which throws when the body is not JSON. -/
structure Response where
  status : Nat
  json : Except String JSValue

/-- A contract method with its arguments, `contract.methods.name(args)`. -/
inductive Method where
  | storeEnergy (totalEnergy : JSNumber)
  | payBill
  deriving DecidableEq

/-- The transaction object handed to `signTransaction`. -/
structure TxObject where
  /-- The field `to`. -/
  to_ : String
  data : String
  gas : Nat
  gasPrice : Nat
  nonce : Nat
  value : Option String
  deriving DecidableEq

/-- A call into the web3 library, with its arguments. -/
inductive Web3Call where
  | getBill (sender : String)
  | methods (m : Method)
  | estimateGas (m : Method) (sender : String) (value : Option Nat)
  | getGasPrice
  | encodeABI (m : Method)
  | getTransactionCount (address : String) (block : String)
  | signTransaction (tx : TxObject) (key : String)
  | sendSignedTransaction (raw : String)
  deriving DecidableEq

/-- The answers of the web3 library and the node behind it: each call returns
a value or throws. -/
structure Web3 where
  /-- The read-only call `contract.methods.getBill().call`. -/
  getBill : String → Except String Nat
  /-- Building a method object, which checks the arguments against the ABI. -/
  methods : Method → Except String Unit
  estimateGas : Method → String → Option Nat → Except String Nat
  getGasPrice : Except String Nat
  encodeABI : Method → Except String String
  getTransactionCount : String → String → Except String Nat
  /-- Returns `signedTx.rawTransaction`. -/
  signTransaction : TxObject → String → Except String String
  /-- Returns `receipt.transactionHash`. -/
  sendSignedTransaction : String → Except String String

/-- What a function of `App` did: the session once it has settled, the library
calls made in order, the values written to `loading` in order, and the message
given to `console.error`, if any. -/
structure Run where
  state : Session
  calls : List Web3Call
  loadingWrites : List Bool
  reported : Option String

/-- One awaited library call inside a `try` block: record the call; when it
throws, nothing after it runs. -/
def step {α β : Type} (c : Web3Call) (r : Except String α)
    (k : α → List Web3Call × Except String β) : List Web3Call × Except String β :=
  match r with
  | .error e => ([c], .error e)
  | .ok a =>
    match k a with
    | (calls, result) => (c :: calls, result)

/-! ## The functions of `App` -/

/-- The expression `data.power[0].value`. -/
def readPower (data : JSValue) : Except String JSValue :=
  match getField data "power" with
  | .error e => .error e
  | .ok power =>
    match getIndex0 power with
    | .error e => .error e
    | .ok first => getField first "value"

/-- `fetchEnergyData`, given what `fetch` did: it rejected, or it resolved to a
response. -/
def fetchEnergyData (telemetry : Except String Response) (s : Session) : Run :=
  match telemetry with
  | .error e => ⟨s, [], [], some e⟩
  | .ok response =>
    match response.json with
    | .error e => ⟨s, [], [], some e⟩
    | .ok data =>
      match readPower data with
      | .error e => ⟨s, [], [], some e⟩
      | .ok power =>
        match toNumber power with
        | .error e => ⟨s, [], [], some e⟩
        | .ok number =>
          let energyValue := mathFloor number
          ⟨{ s with energy := some energyValue }, [], [], none⟩

/-- The `try` block of `sendEnergyData`, for the captured value of `energy`. -/
def sendEnergyTry (env : Env) (w : Web3) (energy : JSNumber) :
    List Web3Call × Except String Transaction :=
  let roundedEnergy := mathFloor energy
  let tx := Method.storeEnergy roundedEnergy
  step (.methods tx) (w.methods tx) fun _ =>
  step (.estimateGas tx env.account none) (w.estimateGas tx env.account none) fun gas =>
  step .getGasPrice w.getGasPrice fun gasPrice =>
  step (.encodeABI tx) (w.encodeABI tx) fun data =>
  step (.getTransactionCount env.account "latest")
    (w.getTransactionCount env.account "latest") fun nonce =>
  let txObject : TxObject := ⟨env.contractAddress, data, gas, gasPrice, nonce, none⟩
  step (.signTransaction txObject env.privateKey)
    (w.signTransaction txObject env.privateKey) fun rawTransaction =>
  step (.sendSignedTransaction rawTransaction)
    (w.sendSignedTransaction rawTransaction) fun transactionHash =>
  ([], .ok ⟨"Energy Stored", numberToString env energy, transactionHash⟩)

/-- `sendEnergyData`. -/
def sendEnergyData (env : Env) (w : Web3) (s : Session) : Run :=
  match s.energy with
  | none => ⟨s, [], [], none⟩
  | some energy =>
    if !energy.truthy then ⟨s, [], [], none⟩
    else
      match sendEnergyTry env w energy with
      | (calls, .ok t) =>
        ⟨{ s with transactions := addTransaction t s.transactions, loading := false },
          calls, [true, false], none⟩
      | (calls, .error e) => ⟨{ s with loading := false }, calls, [true, false], some e⟩

/-- `fetchBill`. -/
def fetchBill (env : Env) (w : Web3) (s : Session) : Run :=
  match w.getBill env.account with
  | .ok billAmount =>
    ⟨{ s with bill := some billAmount, loading := false },
      [.getBill env.account], [true, false], none⟩
  | .error e => ⟨{ s with loading := false }, [.getBill env.account], [true, false], some e⟩

/-- The `try` block of `payBill`; it ends with no entry when nothing is owed. -/
def payBillTry (env : Env) (w : Web3) : List Web3Call × Except String (Option Transaction) :=
  step (.getBill env.account) (w.getBill env.account) fun billAmount =>
  if billAmount = 0 then ([], .ok none)
  else
    let tx := Method.payBill
    step (.methods tx) (w.methods tx) fun _ =>
    step (.estimateGas tx env.account (some billAmount))
      (w.estimateGas tx env.account (some billAmount)) fun gas =>
    step .getGasPrice w.getGasPrice fun gasPrice =>
    step (.encodeABI tx) (w.encodeABI tx) fun data =>
    step (.getTransactionCount env.account "latest")
      (w.getTransactionCount env.account "latest") fun nonce =>
    let txObject : TxObject :=
      ⟨env.contractAddress, data, gas, gasPrice, nonce, some (toString billAmount)⟩
    step (.signTransaction txObject env.privateKey)
      (w.signTransaction txObject env.privateKey) fun rawTransaction =>
    step (.sendSignedTransaction rawTransaction)
      (w.sendSignedTransaction rawTransaction) fun transactionHash =>
    ([], .ok (some ⟨"Bill Payment", toString billAmount, transactionHash⟩))

/-- `payBill`. -/
def payBill (env : Env) (w : Web3) (s : Session) : Run :=
  match payBillTry env w with
  | (calls, .ok none) => ⟨{ s with loading := false }, calls, [true, false], none⟩
  | (calls, .ok (some t)) =>
    ⟨{ s with transactions := addTransaction t s.transactions, loading := false },
      calls, [true, false], none⟩
  | (calls, .error e) => ⟨{ s with loading := false }, calls, [true, false], some e⟩

/-! ## Failing calls -/

/-- The message an answer throws, if it throws. -/
def thrownBy {α : Type} : Except String α → Option String
  | .error e => some e
  | .ok _ => none

/-- The message the library throws when asked to perform a call, if any. -/
def Web3.thrown (w : Web3) : Web3Call → Option String
  | .getBill sender => thrownBy (w.getBill sender)
  | .methods m => thrownBy (w.methods m)
  | .estimateGas m sender value => thrownBy (w.estimateGas m sender value)
  | .getGasPrice => thrownBy w.getGasPrice
  | .encodeABI m => thrownBy (w.encodeABI m)
  | .getTransactionCount address block => thrownBy (w.getTransactionCount address block)
  | .signTransaction tx key => thrownBy (w.signTransaction tx key)
  | .sendSignedTransaction raw => thrownBy (w.sendSignedTransaction raw)

/-- The library function a call goes to. -/
inductive StepName where
  | getBill
  | methods
  | estimateGas
  | getGasPrice
  | encodeABI
  | getTransactionCount
  | signTransaction
  | sendSignedTransaction
  deriving DecidableEq

/-- The library function of a call. -/
def Web3Call.name : Web3Call → StepName
  | .getBill _ => .getBill
  | .methods _ => .methods
  | .estimateGas _ _ _ => .estimateGas
  | .getGasPrice => .getGasPrice
  | .encodeABI _ => .encodeABI
  | .getTransactionCount _ _ => .getTransactionCount
  | .signTransaction _ _ => .signTransaction
  | .sendSignedTransaction _ => .sendSignedTransaction

/-- The order in which `sendEnergyData` goes through the library. -/
def submitSequence : List StepName :=
  [.methods, .estimateGas, .getGasPrice, .encodeABI, .getTransactionCount,
    .signTransaction, .sendSignedTransaction]

/-- The order in which `payBill` goes through the library. -/
def paySequence : List StepName := .getBill :: submitSequence

/-! ## Rounding as the specification words it -/

/-- Truncation toward zero: drop the fractional part. -/
def truncToZero (q : ℚ) : ℤ := if 0 ≤ q then ⌊q⌋ else ⌈q⌉

/-! ## The buttons and the workflows in flight

The three handlers are asynchronous: a call runs the handler up to its first
`await` and returns; the rest runs when the awaited calls are answered.  A
render reads the state cells: the handlers it creates see those values, and the
three buttons it draws carry `disabled={loading}` with the value it read.  A
write to a state cell shows on the page only after the next render. -/

/-- The three buttons, by their `onClick` handler. -/
inductive Button where
  | sendEnergyData
  | fetchBill
  | payBill
  deriving DecidableEq

/-- A workflow that has started and not yet settled; `sendEnergyData` keeps
the value of `energy` it was called with. -/
inductive Pending where
  | sendEnergyData (energy : JSNumber)
  | fetchBill
  | payBill
  deriving DecidableEq

/-- The mounted component: the state cells, the values the last render read
from them, and the workflows in flight, oldest first. -/
structure Page where
  session : Session
  rendered : Session
  inflight : List Pending

/-- The component right after its first render. -/
def Page.init : Page := ⟨Session.init, Session.init, []⟩

/-- Calling a handler of the last render: it runs up to its first `await`.
`sendEnergyData` returns at once when the `energy` it sees is falsy; otherwise
each handler sets `loading` and is then in flight.  No handler reads
`loading`. -/
def invoke (b : Button) (page : Page) : Page :=
  match b with
  | .sendEnergyData =>
    match page.rendered.energy with
    | none => page
    | some energy =>
      if !energy.truthy then page
      else
        { page with
          session := { page.session with loading := true }
          inflight := page.inflight ++ [.sendEnergyData energy] }
  | .fetchBill =>
    { page with
      session := { page.session with loading := true }
      inflight := page.inflight ++ [.fetchBill] }
  | .payBill =>
    { page with
      session := { page.session with loading := true }
      inflight := page.inflight ++ [.payBill] }

/-- Clicking a button: a button drawn disabled dispatches no click. -/
def click (b : Button) (page : Page) : Page :=
  if page.rendered.loading then page else invoke b page

/-- The rest of a workflow, run against the answers of the library: its state
updates apply to the session as it is when the workflow settles. -/
def Pending.settle (env : Env) (w : Web3) : Pending → Session → Session
  | .sendEnergyData energy, s =>
    match (sendEnergyTry env w energy).2 with
    | .ok t => { s with transactions := addTransaction t s.transactions, loading := false }
    | .error _ => { s with loading := false }
  | .fetchBill, s =>
    match w.getBill env.account with
    | .ok billAmount => { s with bill := some billAmount, loading := false }
    | .error _ => { s with loading := false }
  | .payBill, s =>
    match (payBillTry env w).2 with
    | .ok (some t) => { s with transactions := addTransaction t s.transactions, loading := false }
    | _ => { s with loading := false }

/-- What can happen to the mounted component. -/
inductive Event where
  /-- The user clicks a button. -/
  | click (b : Button)
  /-- A handler is called directly, not through its button. -/
  | call (b : Button)
  /-- React renders the component again. -/
  | render
  /-- The workflow at a position of the in-flight list settles. -/
  | settle (i : Nat) (w : Web3)
  /-- A run of `fetchEnergyData` settles. -/
  | telemetry (t : Except String Response)

/-- The effect of one event. -/
def Page.next (env : Env) (page : Page) : Event → Page
  | .click b => click b page
  | .call b => invoke b page
  | .render => { page with rendered := page.session }
  | .settle i w =>
    match page.inflight.get? i with
    | none => page
    | some p =>
      { page with
        session := p.settle env w page.session
        inflight := page.inflight.eraseIdx i }
  | .telemetry t => { page with session := (fetchEnergyData t page.session).state }

/-- The effect of a sequence of events on the freshly mounted component. -/
def Page.after (env : Env) (evs : List Event) : Page :=
  evs.foldl (Page.next env) Page.init

/-- A run in which every click lands on a page rendered just before it, and no
handler is called directly. -/
def rendersBeforeClicks : List Event → Bool
  | .render :: .click _ :: rest => rendersBeforeClicks rest
  | .click _ :: _ => false
  | .call _ :: _ => false
  | _ :: rest => rendersBeforeClicks rest
  | [] => true

/-! ## Example environment -/

/-- An environment for the examples. -/
def exampleEnv : Env := ⟨"0xC0", "0xKEY", "0xA1", fun _ => "?"⟩

/-- A library in which every call succeeds: the bill is `billAmount` and the
receipt carries `transactionHash`. -/
def happyWeb3 (billAmount : Nat) (transactionHash : String) : Web3 where
  getBill := fun _ => .ok billAmount
  methods := fun _ => .ok ()
  estimateGas := fun _ _ _ => .ok 21000
  getGasPrice := .ok 1
  encodeABI := fun _ => .ok "0xdata"
  getTransactionCount := fun _ _ => .ok 0
  signTransaction := fun _ _ => .ok "0xraw"
  sendSignedTransaction := fun _ => .ok transactionHash

/-- A telemetry response whose first `power` sample has the given `value`. -/
def sample (value : JSValue) : Except String Response :=
  .ok ⟨200, .ok (.obj [("power", .arr [.obj [("value", value)]])])⟩

/-- A library in which the calls to one function throw `rejected` and all
others succeed, with a bill of 500 and receipt hash `0xabc`. -/
def failingWeb3 (k : StepName) : Web3 where
  getBill := fun _ => if k = .getBill then .error "rejected" else .ok 500
  methods := fun _ => if k = .methods then .error "rejected" else .ok ()
  estimateGas := fun _ _ _ => if k = .estimateGas then .error "rejected" else .ok 21000
  getGasPrice := if k = .getGasPrice then .error "rejected" else .ok 1
  encodeABI := fun _ => if k = .encodeABI then .error "rejected" else .ok "0xdata"
  getTransactionCount := fun _ _ =>
    if k = .getTransactionCount then .error "rejected" else .ok 0
  signTransaction := fun _ _ => if k = .signTransaction then .error "rejected" else .ok "0xraw"
  sendSignedTransaction := fun _ =>
    if k = .sendSignedTransaction then .error "rejected" else .ok "0xabc"

/-- A session holding the reading 17 and nothing else. -/
def readingSession : Session := ⟨some (.fin 17), none, false, []⟩

/-! ## Predicates used in the proofs -/

/-- A traced `try` block follows the given sequence, and a call that throws is
its last call and decides its result. -/
def Sound {β : Type} (w : Web3) (seq : List StepName)
    (tr : List Web3Call × Except String β) : Prop :=
  tr.1.map Web3Call.name <+: seq ∧
  ∀ c e, w.thrown c = some e → c ∈ tr.1 → tr.2 = .error e ∧ tr.1.getLast? = some c

/-- Either one workflow is in flight and `loading` is set, or none is and
`loading` is clear. -/
def Exclusive (page : Page) : Prop :=
  (page.session.loading = true ∧ page.inflight.length = 1) ∨
  (page.session.loading = false ∧ page.inflight = [])

/-! # Properties -/

/-! ## Bounded history -/

theorem take_append_take {α : Type} (n : Nat) (a b : List α) :
    (a ++ b.take n).take n = (a ++ b).take n := by
  rw [List.take_append_eq_append_take, List.take_append_eq_append_take, List.take_take]
  congr 2
  omega

theorem recordAll_from (es start : List Transaction) (h : start.length ≤ 5) :
    recordAll es start = (es.reverse ++ start).take 5 := by
  induction es generalizing start with
  | nil => simp [recordAll, List.take_of_length_le h]
  | cons e es ih =>
    have h5 : (addTransaction e start).length ≤ 5 := by
      simp [addTransaction, List.length_take]
    have hstep : recordAll (e :: es) start = recordAll es (addTransaction e start) := rfl
    rw [hstep, ih _ h5, addTransaction, take_append_take]
    simp

theorem recordAll_nil (es : List Transaction) : recordAll es [] = es.reverse.take 5 := by
  simpa using recordAll_from es [] (by simp)

/-- C1: recording any sequence of entries from the empty history leaves the
last `min 5 n` of them, newest first; the length is `min 5 n`, and after every
prefix of the sequence the history holds at most five entries. -/
theorem addTransaction_history_bounded (es : List Transaction) :
    recordAll es [] = (es.drop (es.length - min 5 es.length)).reverse ∧
    (recordAll es []).length = min 5 es.length ∧
    ∀ k, (recordAll (es.take k) []).length ≤ 5 := by
  refine ⟨?_, ?_, ?_⟩
  · rw [recordAll_nil, List.take_reverse]
    congr 2
    omega
  · rw [recordAll_nil]; simp [List.length_take]
  · intro k; rw [recordAll_nil]; simp [List.length_take]

/-! ## Guards of the workflows -/

/-- C5: with no current reading, `sendEnergyData` reports no error, makes no
library call, writes nothing to `loading` and leaves the session as it was. -/
theorem sendEnergyData_no_reading (env : Env) (w : Web3) (s : Session)
    (h : s.energy = none) :
    (sendEnergyData env w s).state = s ∧
    (sendEnergyData env w s).calls = [] ∧
    (sendEnergyData env w s).loadingWrites = [] ∧
    (sendEnergyData env w s).reported = none := by
  simp [sendEnergyData, h]

theorem sendEnergyData_no_reading_witness :
    Session.init.energy = none ∧
    (sendEnergyData exampleEnv (happyWeb3 500 "0xabc") Session.init).state = Session.init ∧
    (sendEnergyData exampleEnv (happyWeb3 500 "0xabc") Session.init).calls = [] ∧
    (sendEnergyData exampleEnv (happyWeb3 500 "0xabc") Session.init).loadingWrites = [] ∧
    (sendEnergyData exampleEnv (happyWeb3 500 "0xabc") Session.init).reported = none :=
  ⟨rfl, sendEnergyData_no_reading exampleEnv (happyWeb3 500 "0xabc") Session.init rfl⟩

/-- C6: when the `getBill` call inside `payBill` returns zero, `payBill` ends
without an error after that one call: nothing is signed or submitted, the
history is unchanged and `loading` is written `true` then `false`. -/
theorem payBill_nothing_owed (env : Env) (w : Web3) (s : Session)
    (h : w.getBill env.account = .ok 0) :
    (payBill env w s).reported = none ∧
    (payBill env w s).calls = [.getBill env.account] ∧
    (∀ tx key, Web3Call.signTransaction tx key ∉ (payBill env w s).calls) ∧
    (∀ raw, Web3Call.sendSignedTransaction raw ∉ (payBill env w s).calls) ∧
    (payBill env w s).state.transactions = s.transactions ∧
    (payBill env w s).state = { s with loading := false } ∧
    (payBill env w s).loadingWrites = [true, false] := by
  simp [payBill, payBillTry, step, h]

theorem payBill_nothing_owed_witness :
    (happyWeb3 0 "0xdef").getBill exampleEnv.account = .ok 0 ∧
    (payBill exampleEnv (happyWeb3 0 "0xdef") Session.init).calls
      = [.getBill exampleEnv.account] :=
  ⟨rfl, (payBill_nothing_owed exampleEnv (happyWeb3 0 "0xdef") Session.init rfl).2.1⟩

/-! ## Failure of a library call -/

theorem sound_done {β : Type} (w : Web3) (seq : List StepName) (b : β) :
    Sound w seq (([] : List Web3Call), (Except.ok b : Except String β)) := by
  refine ⟨by simp, ?_⟩
  intro c e _ hc
  simp at hc

theorem step_error {α β : Type} (c : Web3Call) (e : String)
    (k : α → List Web3Call × Except String β) :
    step c (.error e) k = ([c], .error e) := rfl

theorem step_ok {α β : Type} (c : Web3Call) (a : α)
    (k : α → List Web3Call × Except String β) :
    step c (.ok a) k = (c :: (k a).1, (k a).2) := rfl

theorem step_head {α β : Type} (c : Web3Call) (r : Except String α)
    (k : α → List Web3Call × Except String β) :
    (step c r k).1.head? = some c := by
  cases r with
  | error e => rw [step_error]; rfl
  | ok a => rw [step_ok]; rfl

theorem step_sound {α β : Type} (w : Web3) (c0 : Web3Call) (r : Except String α)
    (k : α → List Web3Call × Except String β) (seq : List StepName)
    (hr : w.thrown c0 = thrownBy r) (hk : ∀ a, Sound w seq (k a)) :
    Sound w (c0.name :: seq) (step c0 r k) := by
  cases r with
  | error msg =>
    rw [step_error]
    refine ⟨by simp, ?_⟩
    intro c e hthrown hc
    simp only [List.mem_singleton] at hc
    subst hc
    rw [hr] at hthrown
    simp only [thrownBy, Option.some.injEq] at hthrown
    simp [hthrown]
  | ok a =>
    obtain ⟨hpre, hlast⟩ := hk a
    rw [step_ok]
    refine ⟨by simpa using hpre, ?_⟩
    intro c e hthrown hc
    simp only [List.mem_cons] at hc
    rcases hc with hc | hc
    · subst hc
      rw [hr] at hthrown
      simp [thrownBy] at hthrown
    · obtain ⟨h1, h2⟩ := hlast c e hthrown hc
      refine ⟨h1, ?_⟩
      cases hka : (k a).1 with
      | nil => rw [hka] at hc; simp at hc
      | cons x xs =>
        rw [hka] at h2
        rw [List.getLast?_cons_cons]
        exact h2

theorem sendEnergyTry_sound (env : Env) (w : Web3) (energy : JSNumber) :
    Sound w submitSequence (sendEnergyTry env w energy) := by
  unfold sendEnergyTry submitSequence
  refine step_sound w _ _ _ _ rfl fun _ => ?_
  refine step_sound w _ _ _ _ rfl fun _ => ?_
  refine step_sound w _ _ _ _ rfl fun _ => ?_
  refine step_sound w _ _ _ _ rfl fun _ => ?_
  refine step_sound w _ _ _ _ rfl fun _ => ?_
  refine step_sound w _ _ _ _ rfl fun _ => ?_
  refine step_sound w _ _ _ _ rfl fun _ => ?_
  exact sound_done w _ _

theorem payBillTry_sound (env : Env) (w : Web3) :
    Sound w paySequence (payBillTry env w) := by
  unfold payBillTry paySequence submitSequence
  refine step_sound w _ _ _ _ rfl fun billAmount => ?_
  split
  · exact sound_done w _ _
  refine step_sound w _ _ _ _ rfl fun _ => ?_
  refine step_sound w _ _ _ _ rfl fun _ => ?_
  refine step_sound w _ _ _ _ rfl fun _ => ?_
  refine step_sound w _ _ _ _ rfl fun _ => ?_
  refine step_sound w _ _ _ _ rfl fun _ => ?_
  refine step_sound w _ _ _ _ rfl fun _ => ?_
  refine step_sound w _ _ _ _ rfl fun _ => ?_
  exact sound_done w _ _

theorem sendEnergyData_calls (env : Env) (w : Web3) (s : Session) (c : Web3Call)
    (hc : c ∈ (sendEnergyData env w s).calls) :
    ∃ energy, s.energy = some energy ∧ energy.truthy = true ∧
      (sendEnergyData env w s).calls = (sendEnergyTry env w energy).1 := by
  unfold sendEnergyData at hc ⊢
  cases hE : s.energy with
  | none => simp [hE] at hc
  | some energy =>
    cases ht : energy.truthy with
    | false => simp [hE, ht] at hc
    | true =>
      refine ⟨energy, rfl, ht, ?_⟩
      simp only [ht]
      rcases hres : sendEnergyTry env w energy with ⟨calls, r⟩
      cases r <;> simp

/-- C2: with `loading` clear, if a library call made by `sendEnergyData` or by
`payBill` throws, then that call is the last one made, the calls made are an
initial segment of the workflow's sequence, the thrown message is reported,
`loading` is written `true` then `false`, and the session ends as it began. -/
theorem workflow_failure_atomic (env : Env) (w : Web3) (s : Session) (c : Web3Call)
    (e : String) (hbusy : s.loading = false) (hthrown : w.thrown c = some e) :
    (c ∈ (sendEnergyData env w s).calls →
      (sendEnergyData env w s).state = s ∧
      (sendEnergyData env w s).calls.getLast? = some c ∧
      (sendEnergyData env w s).calls.map Web3Call.name <+: submitSequence ∧
      (sendEnergyData env w s).loadingWrites = [true, false] ∧
      (sendEnergyData env w s).reported = some e) ∧
    (c ∈ (payBill env w s).calls →
      (payBill env w s).state = s ∧
      (payBill env w s).calls.getLast? = some c ∧
      (payBill env w s).calls.map Web3Call.name <+: paySequence ∧
      (payBill env w s).loadingWrites = [true, false] ∧
      (payBill env w s).reported = some e) := by
  obtain ⟨en, bl, ld, txs⟩ := s
  simp only at hbusy
  subst hbusy
  constructor
  · intro hc
    obtain ⟨energy, hE, ht, hcalls⟩ := sendEnergyData_calls env w _ c hc
    obtain ⟨hpre, hlast⟩ := sendEnergyTry_sound env w energy
    rw [hcalls] at hc
    obtain ⟨hres, hl⟩ := hlast c e hthrown hc
    rcases htr : sendEnergyTry env w energy with ⟨calls, r⟩
    rw [htr] at hres hl hpre
    simp only at hres hl hpre hE
    subst hres hE
    simp [sendEnergyData, ht, htr, hl, hpre]
  · intro hc
    obtain ⟨hpre, hlast⟩ := payBillTry_sound env w
    rcases htr : payBillTry env w with ⟨calls, r⟩
    have hcalls : (payBill env w ⟨en, bl, false, txs⟩).calls = calls := by
      unfold payBill
      rw [htr]
      rcases r with _ | _ | _ <;> rfl
    rw [hcalls] at hc
    rw [htr] at hpre hlast
    obtain ⟨hres, hl⟩ := hlast c e hthrown hc
    simp only at hres hl hpre
    subst hres
    simp [payBill, htr, hl, hpre]

theorem workflow_failure_atomic_witness :
    ((sendEnergyData exampleEnv (failingWeb3 .methods) readingSession).state = readingSession ∧
      (sendEnergyData exampleEnv (failingWeb3 .methods) readingSession).calls.getLast?
        = some (.methods (.storeEnergy (.fin 17)))) ∧
    ((sendEnergyData exampleEnv (failingWeb3 .estimateGas) readingSession).state = readingSession ∧
      (sendEnergyData exampleEnv (failingWeb3 .estimateGas) readingSession).calls.getLast?
        = some (.estimateGas (.storeEnergy (.fin 17)) "0xA1" none)) ∧
    ((sendEnergyData exampleEnv (failingWeb3 .getGasPrice) readingSession).state = readingSession ∧
      (sendEnergyData exampleEnv (failingWeb3 .getGasPrice) readingSession).calls.getLast?
        = some (.getGasPrice)) ∧
    ((sendEnergyData exampleEnv (failingWeb3 .encodeABI) readingSession).state = readingSession ∧
      (sendEnergyData exampleEnv (failingWeb3 .encodeABI) readingSession).calls.getLast?
        = some (.encodeABI (.storeEnergy (.fin 17)))) ∧
    ((sendEnergyData exampleEnv (failingWeb3 .getTransactionCount) readingSession).state = readingSession ∧
      (sendEnergyData exampleEnv (failingWeb3 .getTransactionCount) readingSession).calls.getLast?
        = some (.getTransactionCount "0xA1" "latest")) ∧
    ((sendEnergyData exampleEnv (failingWeb3 .signTransaction) readingSession).state = readingSession ∧
      (sendEnergyData exampleEnv (failingWeb3 .signTransaction) readingSession).calls.getLast?
        = some (.signTransaction ⟨"0xC0", "0xdata", 21000, 1, 0, none⟩ "0xKEY")) ∧
    ((sendEnergyData exampleEnv (failingWeb3 .sendSignedTransaction) readingSession).state = readingSession ∧
      (sendEnergyData exampleEnv (failingWeb3 .sendSignedTransaction) readingSession).calls.getLast?
        = some (.sendSignedTransaction "0xraw")) ∧
    ((payBill exampleEnv (failingWeb3 .getBill) readingSession).state = readingSession ∧
      (payBill exampleEnv (failingWeb3 .getBill) readingSession).calls.getLast?
        = some (.getBill "0xA1")) ∧
    ((payBill exampleEnv (failingWeb3 .methods) readingSession).state = readingSession ∧
      (payBill exampleEnv (failingWeb3 .methods) readingSession).calls.getLast?
        = some (.methods .payBill)) ∧
    ((payBill exampleEnv (failingWeb3 .estimateGas) readingSession).state = readingSession ∧
      (payBill exampleEnv (failingWeb3 .estimateGas) readingSession).calls.getLast?
        = some (.estimateGas .payBill "0xA1" (some 500))) ∧
    ((payBill exampleEnv (failingWeb3 .getGasPrice) readingSession).state = readingSession ∧
      (payBill exampleEnv (failingWeb3 .getGasPrice) readingSession).calls.getLast?
        = some (.getGasPrice)) ∧
    ((payBill exampleEnv (failingWeb3 .encodeABI) readingSession).state = readingSession ∧
      (payBill exampleEnv (failingWeb3 .encodeABI) readingSession).calls.getLast?
        = some (.encodeABI .payBill)) ∧
    ((payBill exampleEnv (failingWeb3 .getTransactionCount) readingSession).state = readingSession ∧
      (payBill exampleEnv (failingWeb3 .getTransactionCount) readingSession).calls.getLast?
        = some (.getTransactionCount "0xA1" "latest")) ∧
    ((payBill exampleEnv (failingWeb3 .signTransaction) readingSession).state = readingSession ∧
      (payBill exampleEnv (failingWeb3 .signTransaction) readingSession).calls.getLast?
        = some (.signTransaction ⟨"0xC0", "0xdata", 21000, 1, 0, some "500"⟩ "0xKEY")) ∧
    ((payBill exampleEnv (failingWeb3 .sendSignedTransaction) readingSession).state = readingSession ∧
      (payBill exampleEnv (failingWeb3 .sendSignedTransaction) readingSession).calls.getLast?
        = some (.sendSignedTransaction "0xraw")) := by
  have hsend : ∀ k c, (failingWeb3 k).thrown c = some "rejected" →
      c ∈ (sendEnergyData exampleEnv (failingWeb3 k) readingSession).calls →
      (sendEnergyData exampleEnv (failingWeb3 k) readingSession).state = readingSession ∧
      (sendEnergyData exampleEnv (failingWeb3 k) readingSession).calls.getLast? = some c :=
    fun k c ht hc =>
      ⟨((workflow_failure_atomic exampleEnv (failingWeb3 k) readingSession c "rejected" rfl
          ht).1 hc).1,
        ((workflow_failure_atomic exampleEnv (failingWeb3 k) readingSession c "rejected" rfl
          ht).1 hc).2.1⟩
  have hpay : ∀ k c, (failingWeb3 k).thrown c = some "rejected" →
      c ∈ (payBill exampleEnv (failingWeb3 k) readingSession).calls →
      (payBill exampleEnv (failingWeb3 k) readingSession).state = readingSession ∧
      (payBill exampleEnv (failingWeb3 k) readingSession).calls.getLast? = some c :=
    fun k c ht hc =>
      ⟨((workflow_failure_atomic exampleEnv (failingWeb3 k) readingSession c "rejected" rfl
          ht).2 hc).1,
        ((workflow_failure_atomic exampleEnv (failingWeb3 k) readingSession c "rejected" rfl
          ht).2 hc).2.1⟩
  refine ⟨hsend _ _ rfl ?_, hsend _ _ rfl ?_, hsend _ _ rfl ?_, hsend _ _ rfl ?_,
    hsend _ _ rfl ?_, hsend _ _ rfl ?_, hsend _ _ rfl ?_, hpay _ _ rfl ?_, hpay _ _ rfl ?_,
    hpay _ _ rfl ?_, hpay _ _ rfl ?_, hpay _ _ rfl ?_, hpay _ _ rfl ?_, hpay _ _ rfl ?_,
    hpay _ _ rfl ?_⟩
  all_goals decide

/-! ## Telemetry ingestion -/

theorem floor_178 : mathFloor (stringToNumber "17.8") = .fin 17 := by
  have h : readNumericLiteral "17.8".toList = .decimal false 178 (-1) := by decide
  have hr : roundBinary64 178 (10 ^ 1) = some (5010254585449677, -48) := by decide
  have hm : ¬ (178 = 0) := by decide
  have he : ¬ (0 ≤ (-1 : Int)) := by decide
  have ht : (-(-1 : Int)).toNat = 1 := by decide
  have h48 : ¬ (0 ≤ (-48 : Int)) := by decide
  have ht48 : (-(-48 : Int)).toNat = 48 := by decide
  simp only [stringToNumber, h, NumericLiteral.value, hm, he, ht, hr, scale2, h48, ht48,
    if_false, mathFloor, Bool.false_eq_true]
  congr 1
  norm_num [Int.floor_eq_iff]

theorem stringToNumber_abc : stringToNumber "abc" = .nan := by decide

theorem stringToNumber_empty : stringToNumber "" = .fin 0 := by
  have h : readNumericLiteral "".toList = .decimal false 0 0 := by decide
  unfold stringToNumber
  rw [h]
  simp [NumericLiteral.value]

theorem fetchEnergyData_first_sample (status : Nat) (ps qs : List (String × JSValue))
    (rest : List JSValue) (value : JSValue) (s : Session)
    (hp : ps.lookup "power" = some (.arr (.obj qs :: rest)))
    (hv : (qs.lookup "value").getD .undefined = value) :
    fetchEnergyData (.ok ⟨status, .ok (.obj ps)⟩) s =
      match toNumber value with
      | .error e => ⟨s, [], [], some e⟩
      | .ok number => ⟨{ s with energy := some (mathFloor number) }, [], [], none⟩ := by
  simp [fetchEnergyData, readPower, getField, getIndex0, hp, hv]

theorem fetchEnergyData_sample (value : JSValue) (number : JSNumber) (s : Session)
    (h : toNumber value = .ok number) :
    (fetchEnergyData (sample value) s).state = { s with energy := some (mathFloor number) } := by
  unfold sample
  rw [fetchEnergyData_first_sample 200 [("power", .arr [.obj [("value", value)]])]
    [("value", value)] [] value s rfl rfl, h]

theorem fetchEnergyData_sample_num (x : JSNumber) (s : Session) :
    (fetchEnergyData (sample (.num x)) s).state = { s with energy := some (mathFloor x) } :=
  fetchEnergyData_sample (.num x) x s rfl

/-- C3 as stated fails: with the reading 17 held, a response whose first sample
has the value `abc`, or has no `value` at all, is not treated as a failure;
nothing is reported and the reading is overwritten with `NaN`. -/
theorem fetchEnergyData_nonnumeric_overwrites :
    readingSession.energy = some (.fin 17) ∧
    (fetchEnergyData (sample (.str "abc")) readingSession).state.energy = some .nan ∧
    (fetchEnergyData (sample (.str "abc")) readingSession).reported = none ∧
    (fetchEnergyData (sample (.str "abc")) readingSession).state.energy
      ≠ readingSession.energy ∧
    (fetchEnergyData (.ok ⟨200, .ok (.obj [("power", .arr [.obj []])])⟩)
      readingSession).state.energy = some .nan := by
  have habc : toNumber (.str "abc") = .ok .nan := by
    simp [toNumber, stringToNumber_abc]
  have hrun : fetchEnergyData (sample (.str "abc")) readingSession
      = ⟨{ readingSession with energy := some .nan }, [], [], none⟩ := by
    unfold sample
    rw [fetchEnergyData_first_sample 200 [("power", .arr [.obj [("value", .str "abc")]])]
      [("value", .str "abc")] [] (.str "abc") readingSession rfl rfl, habc]
    rfl
  have hmissing : fetchEnergyData (.ok ⟨200, .ok (.obj [("power", .arr [.obj []])])⟩)
      readingSession = ⟨{ readingSession with energy := some .nan }, [], [], none⟩ := by
    rw [fetchEnergyData_first_sample 200 [("power", .arr [.obj []])] [] [] .undefined
      readingSession rfl rfl]
    rfl
  refine ⟨rfl, ?_, ?_, ?_, ?_⟩
  · rw [hrun]
  · rw [hrun]
  · rw [hrun]; simp [readingSession]
  · rw [hmissing]

/-- C3, amended: under any status, rejected credentials included, a rejected
`fetch`, a body that is not JSON, a body with no `power` field, an empty
`power` array, a first sample that is `null`, and a first sample whose `value`
cannot be converted to a number (an object with a member named `toString`) are
reported and leave the session as it was.  A first sample that is an object
without `value`, or is no object at all, is not a failure: nothing is reported
and the reading becomes `NaN`.  A first sample whose `value` converts to a
number is not a failure either: the reading becomes the floor of that number,
which is `NaN` for a string such as `abc`, 1 for `true`, and 0 for `null`, the
empty string and the empty array. -/
theorem fetchEnergyData_failures (s : Session) :
    (∀ e, (fetchEnergyData (.error e) s).state = s ∧
      (fetchEnergyData (.error e) s).reported = some e) ∧
    (∀ status e, (fetchEnergyData (.ok ⟨status, .error e⟩) s).state = s ∧
      (fetchEnergyData (.ok ⟨status, .error e⟩) s).reported = some e) ∧
    (∀ status ps, ps.lookup "power" = none →
      (fetchEnergyData (.ok ⟨status, .ok (.obj ps)⟩) s).state = s ∧
      (fetchEnergyData (.ok ⟨status, .ok (.obj ps)⟩) s).reported ≠ none) ∧
    (∀ status ps, ps.lookup "power" = some (.arr []) →
      (fetchEnergyData (.ok ⟨status, .ok (.obj ps)⟩) s).state = s ∧
      (fetchEnergyData (.ok ⟨status, .ok (.obj ps)⟩) s).reported ≠ none) ∧
    (∀ status ps rest, ps.lookup "power" = some (.arr (.null :: rest)) →
      (fetchEnergyData (.ok ⟨status, .ok (.obj ps)⟩) s).state = s ∧
      (fetchEnergyData (.ok ⟨status, .ok (.obj ps)⟩) s).reported ≠ none) ∧
    (∀ status ps qs rest value e, ps.lookup "power" = some (.arr (.obj qs :: rest)) →
      qs.lookup "value" = some value → toNumber value = .error e →
      (fetchEnergyData (.ok ⟨status, .ok (.obj ps)⟩) s).state = s ∧
      (fetchEnergyData (.ok ⟨status, .ok (.obj ps)⟩) s).reported = some e) ∧
    (∀ status ps qs rest, ps.lookup "power" = some (.arr (.obj qs :: rest)) →
      qs.lookup "value" = none →
      (fetchEnergyData (.ok ⟨status, .ok (.obj ps)⟩) s).state = { s with energy := some .nan } ∧
      (fetchEnergyData (.ok ⟨status, .ok (.obj ps)⟩) s).reported = none) ∧
    (∀ status ps first rest, ps.lookup "power" = some (.arr (first :: rest)) →
      ((∃ x, first = .num x) ∨ (∃ t, first = .str t) ∨ (∃ b, first = .bool b) ∨
        (∃ xs, first = .arr xs)) →
      (fetchEnergyData (.ok ⟨status, .ok (.obj ps)⟩) s).state = { s with energy := some .nan } ∧
      (fetchEnergyData (.ok ⟨status, .ok (.obj ps)⟩) s).reported = none) ∧
    (∀ status ps qs rest value number, ps.lookup "power" = some (.arr (.obj qs :: rest)) →
      qs.lookup "value" = some value → toNumber value = .ok number →
      (fetchEnergyData (.ok ⟨status, .ok (.obj ps)⟩) s).state
        = { s with energy := some (mathFloor number) } ∧
      (fetchEnergyData (.ok ⟨status, .ok (.obj ps)⟩) s).reported = none) ∧
    (toNumber (.str "abc") = .ok .nan ∧
      toNumber (.bool true) = .ok (.fin 1) ∧
      toNumber .null = .ok (.fin 0) ∧
      toNumber (.str "") = .ok (.fin 0) ∧
      toNumber (.arr []) = .ok (.fin 0) ∧
      toNumber (.obj [("toString", .num (.fin 1))])
        = .error "Cannot convert object to primitive value") := by
  refine ⟨?_, ?_, ?_, ?_, ?_, ?_, ?_, ?_, ?_, ?_⟩
  · intro e; simp [fetchEnergyData]
  · intro status e; simp [fetchEnergyData]
  · intro status ps hp
    simp [fetchEnergyData, readPower, getField, getIndex0, hp]
  · intro status ps hp
    simp [fetchEnergyData, readPower, getField, getIndex0, hp]
  · intro status ps rest hp
    simp [fetchEnergyData, readPower, getField, getIndex0, hp]
  · intro status ps qs rest value e hp hv hthrow
    rw [fetchEnergyData_first_sample status ps qs rest value s hp (by rw [hv]; rfl), hthrow]
    exact ⟨rfl, rfl⟩
  · intro status ps qs rest hp hv
    rw [fetchEnergyData_first_sample status ps qs rest .undefined s hp (by rw [hv]; rfl)]
    exact ⟨rfl, rfl⟩
  · intro status ps first rest hp hfirst
    rcases hfirst with ⟨x, rfl⟩ | ⟨t, rfl⟩ | ⟨b, rfl⟩ | ⟨xs, rfl⟩ <;>
      simp [fetchEnergyData, readPower, getField, getIndex0, hp, toNumber, mathFloor]
  · intro status ps qs rest value number hp hv hnum
    rw [fetchEnergyData_first_sample status ps qs rest value s hp (by rw [hv]; rfl), hnum]
    exact ⟨rfl, rfl⟩
  · refine ⟨?_, ?_, rfl, ?_, ?_, ?_⟩
    · simp [toNumber, stringToNumber_abc]
    · simp [toNumber]
    · simp [toNumber, stringToNumber_empty]
    · simp [toNumber, anyToStringThrows, arrayToNumber]
    · simp [toNumber]

theorem fetchEnergyData_failures_witness :
    (fetchEnergyData (.ok ⟨401, .ok (.obj [("status", .num (.fin 401))])⟩) readingSession).state
      = readingSession ∧
    (fetchEnergyData (.ok ⟨200, .ok (.obj [("power", .arr [])])⟩) readingSession).state
      = readingSession ∧
    (fetchEnergyData (sample (.obj [("toString", .num (.fin 1))])) readingSession).state
      = readingSession ∧
    (fetchEnergyData (sample (.str "abc")) readingSession).state
      = { readingSession with energy := some (mathFloor .nan) } ∧
    (fetchEnergyData (sample (.bool true)) readingSession).state
      = { readingSession with energy := some (mathFloor (.fin 1)) } ∧
    (fetchEnergyData (.ok ⟨200, .ok (.obj [("power", .arr [.num (.fin 5)])])⟩)
      readingSession).state = { readingSession with energy := some .nan } :=
  ⟨((fetchEnergyData_failures readingSession).2.2.1 401
      [("status", .num (.fin 401))] rfl).1,
    ((fetchEnergyData_failures readingSession).2.2.2.1 200 [("power", .arr [])] rfl).1,
    ((fetchEnergyData_failures readingSession).2.2.2.2.2.1 200
      [("power", .arr [.obj [("value", .obj [("toString", .num (.fin 1))])]])]
      [("value", .obj [("toString", .num (.fin 1))])] []
      (.obj [("toString", .num (.fin 1))]) _ rfl rfl
      (fetchEnergyData_failures readingSession).2.2.2.2.2.2.2.2.2.2.2.2.2.2).1,
    ((fetchEnergyData_failures readingSession).2.2.2.2.2.2.2.2.1 200
      [("power", .arr [.obj [("value", .str "abc")]])] [("value", .str "abc")] []
      (.str "abc") .nan rfl rfl
      (fetchEnergyData_failures readingSession).2.2.2.2.2.2.2.2.2.1).1,
    ((fetchEnergyData_failures readingSession).2.2.2.2.2.2.2.2.1 200
      [("power", .arr [.obj [("value", .bool true)]])] [("value", .bool true)] []
      (.bool true) (.fin 1) rfl rfl
      (fetchEnergyData_failures readingSession).2.2.2.2.2.2.2.2.2.2.1).1,
    ((fetchEnergyData_failures readingSession).2.2.2.2.2.2.2.1 200
      [("power", .arr [.num (.fin 5)])] (.num (.fin 5)) [] rfl
      (Or.inl ⟨.fin 5, rfl⟩)).1⟩

/-! ## Rounding of the reading -/

theorem sendEnergyData_first_call (env : Env) (w : Web3) (s : Session) (v : ℚ) (hv : v ≠ 0) :
    (sendEnergyData env w { s with energy := some (.fin v) }).calls.head?
      = some (.methods (.storeEnergy (.fin (⌊v⌋ : ℤ)))) := by
  simp only [sendEnergyData, JSNumber.truthy, hv, ne_eq, not_false_eq_true, decide_True,
    Bool.not_true, Bool.false_eq_true, if_false]
  rcases htr : sendEnergyTry env w (.fin v) with ⟨calls, r⟩
  have hfirst : (sendEnergyTry env w (.fin v)).1.head?
      = some (.methods (.storeEnergy (.fin (⌊v⌋ : ℤ)))) := by
    unfold sendEnergyTry
    exact step_head _ _ _
  rw [htr] at hfirst
  cases r <;> simpa using hfirst

/-- C4 as stated fails: the sample value -1.5 is stored as -2 and the reading
-1.5 is passed to `storeEnergy` as -2, while truncation toward zero gives -1. -/
theorem floor_is_not_truncation :
    truncToZero (-3 / 2) = -1 ∧
    (fetchEnergyData (sample (.num (.fin (-3 / 2)))) Session.init).state.energy
      = some (.fin (-2)) ∧
    (fetchEnergyData (sample (.num (.fin (-3 / 2)))) Session.init).state.energy
      ≠ some (.fin (truncToZero (-3 / 2))) ∧
    (sendEnergyData exampleEnv (happyWeb3 500 "0xabc")
        ⟨some (.fin (-3 / 2)), none, false, []⟩).calls.head?
      = some (.methods (.storeEnergy (.fin (-2)))) := by
  have htrunc : truncToZero (-3 / 2) = -1 := by
    unfold truncToZero
    rw [if_neg (by norm_num)]
    norm_num [Int.ceil_eq_iff]
  have hfloor : (⌊(-3 / 2 : ℚ)⌋ : ℤ) = -2 := by norm_num [Int.floor_eq_iff]
  refine ⟨htrunc, ?_, ?_, ?_⟩
  · rw [fetchEnergyData_sample_num]
    simp [mathFloor, hfloor]
  · rw [fetchEnergyData_sample_num, htrunc]
    simp [mathFloor, hfloor]
  · have h := sendEnergyData_first_call exampleEnv (happyWeb3 500 "0xabc")
      ⟨none, none, false, []⟩ (-3 / 2) (by norm_num)
    rw [hfloor] at h
    simpa using h

/-- C4, amended: for every numeric value `v`, the reading stored from a first
sample of value `v`, and the integer passed to `storeEnergy` for a reading `v`
(which is submitted only when `v` is not zero), is the floor of `v`, the
greatest integer not above `v`; for `v` not below zero this is `v` truncated
toward zero, and 42.9 yields 42. -/
theorem reading_is_floored (v : ℚ) (env : Env) (w : Web3) (s : Session) :
    (fetchEnergyData (sample (.num (.fin v))) s).state.energy = some (.fin (⌊v⌋ : ℤ)) ∧
    (v ≠ 0 → (sendEnergyData env w { s with energy := some (.fin v) }).calls.head?
      = some (.methods (.storeEnergy (.fin (⌊v⌋ : ℤ))))) ∧
    (0 ≤ v → ⌊v⌋ = truncToZero v) ∧
    (fetchEnergyData (sample (.num (.fin (429 / 10)))) s).state.energy = some (.fin 42) := by
  refine ⟨?_, sendEnergyData_first_call env w s v, ?_, ?_⟩
  · rw [fetchEnergyData_sample_num]; simp [mathFloor]
  · intro h; simp [truncToZero, h]
  · rw [fetchEnergyData_sample_num]
    have hfloor : (⌊(429 / 10 : ℚ)⌋ : ℤ) = 42 := by norm_num [Int.floor_eq_iff]
    simp [mathFloor, hfloor]

theorem reading_is_floored_witness :
    (sendEnergyData exampleEnv (happyWeb3 500 "0xabc")
        { Session.init with energy := some (.fin (429 / 10)) }).calls.head?
      = some (.methods (.storeEnergy (.fin (⌊(429 / 10 : ℚ)⌋ : ℤ)))) ∧
    ⌊(429 / 10 : ℚ)⌋ = truncToZero (429 / 10) :=
  ⟨(reading_is_floored (429 / 10) exampleEnv (happyWeb3 500 "0xabc") Session.init).2.1
      (by norm_num),
    (reading_is_floored (429 / 10) exampleEnv (happyWeb3 500 "0xabc") Session.init).2.2.1
      (by norm_num)⟩

/-- C10: with the reading 0, `sendEnergyData` does what it does with no
reading: it returns before writing `loading`, makes no library call, reports
nothing and leaves the session, history included, as it was; and a sample
value `v` with `0 ≤ v < 1` is stored as the reading 0. -/
theorem sendEnergyData_zero_reading (env : Env) (w : Web3) (s : Session)
    (h : s.energy = some (.fin 0)) :
    (sendEnergyData env w s).state = s ∧
    (sendEnergyData env w s).calls = [] ∧
    (sendEnergyData env w s).loadingWrites = [] ∧
    (sendEnergyData env w s).reported = none ∧
    (sendEnergyData env w s).calls = (sendEnergyData env w { s with energy := none }).calls ∧
    (sendEnergyData env w s).loadingWrites
      = (sendEnergyData env w { s with energy := none }).loadingWrites ∧
    (sendEnergyData env w s).state.transactions
      = (sendEnergyData env w { s with energy := none }).state.transactions ∧
    ∀ (v : ℚ) (s0 : Session), 0 ≤ v → v < 1 →
      (fetchEnergyData (sample (.num (.fin v))) s0).state.energy = some (.fin 0) := by
  refine ⟨?_, ?_, ?_, ?_, ?_, ?_, ?_, ?_⟩
  all_goals try simp [sendEnergyData, h, JSNumber.truthy]
  intro v s0 h0 h1
  rw [fetchEnergyData_sample_num]
  have hfloor : (⌊v⌋ : ℤ) = 0 := by
    rw [Int.floor_eq_iff]; constructor <;> simp [h0, h1]
  simp [mathFloor, hfloor]

theorem sendEnergyData_zero_reading_witness :
    (sendEnergyData exampleEnv (happyWeb3 500 "0xabc") ⟨some (.fin 0), none, false, []⟩).calls
      = [] ∧
    (fetchEnergyData (sample (.num (.fin (1 / 2)))) Session.init).state.energy
      = some (.fin 0) :=
  ⟨(sendEnergyData_zero_reading exampleEnv (happyWeb3 500 "0xabc")
      ⟨some (.fin 0), none, false, []⟩ rfl).2.1,
    (sendEnergyData_zero_reading exampleEnv (happyWeb3 500 "0xabc")
      ⟨some (.fin 0), none, false, []⟩ rfl).2.2.2.2.2.2.2 (1 / 2) Session.init
      (by norm_num) (by norm_num)⟩

/-! ## The amount paid -/

theorem ok_of_not_thrown {α : Type} (r : Except String α) (h : thrownBy r = none) :
    ∃ a, r = .ok a := by
  cases r with
  | error e => simp [thrownBy] at h
  | ok a => exact ⟨a, rfl⟩

theorem step_calls {α β : Type} (c : Web3Call) (r : Except String α)
    (k : α → List Web3Call × Except String β) : ∃ rest, (step c r k).1 = c :: rest := by
  cases r with
  | error e => exact ⟨[], rfl⟩
  | ok a => exact ⟨(k a).1, by rw [step_ok]⟩

theorem step_eq {α β : Type} (c : Web3Call) (r : Except String α)
    (k : α → List Web3Call × Except String β) (a : α) (calls : List Web3Call)
    (result : Except String β) (hr : r = .ok a) (hk : k a = (calls, result)) :
    step c r k = (c :: calls, result) := by
  subst hr
  rw [step_ok, hk]

theorem payBillTry_full (env : Env) (w : Web3) (b : Nat)
    (hok : ∀ c, w.thrown c = none) (hb : w.getBill env.account = .ok b) (hpos : b ≠ 0) :
    ∃ gas gasPrice data nonce raw hash,
      w.estimateGas .payBill env.account (some b) = .ok gas ∧
      w.getGasPrice = .ok gasPrice ∧
      w.encodeABI .payBill = .ok data ∧
      w.getTransactionCount env.account "latest" = .ok nonce ∧
      w.signTransaction ⟨env.contractAddress, data, gas, gasPrice, nonce, some (toString b)⟩
        env.privateKey = .ok raw ∧
      w.sendSignedTransaction raw = .ok hash ∧
      payBillTry env w =
        ([.getBill env.account, .methods .payBill,
          .estimateGas .payBill env.account (some b), .getGasPrice, .encodeABI .payBill,
          .getTransactionCount env.account "latest",
          .signTransaction
            ⟨env.contractAddress, data, gas, gasPrice, nonce, some (toString b)⟩
            env.privateKey,
          .sendSignedTransaction raw],
          .ok (some ⟨"Bill Payment", toString b, hash⟩)) := by
  obtain ⟨u, hu⟩ := ok_of_not_thrown (w.methods .payBill) (hok (.methods .payBill))
  obtain ⟨gas, hgas⟩ := ok_of_not_thrown (w.estimateGas .payBill env.account (some b))
    (hok (.estimateGas .payBill env.account (some b)))
  obtain ⟨gasPrice, hprice⟩ := ok_of_not_thrown w.getGasPrice (hok .getGasPrice)
  obtain ⟨data, hdata⟩ := ok_of_not_thrown (w.encodeABI .payBill) (hok (.encodeABI .payBill))
  obtain ⟨nonce, hnonce⟩ := ok_of_not_thrown (w.getTransactionCount env.account "latest")
    (hok (.getTransactionCount env.account "latest"))
  obtain ⟨raw, hraw⟩ := ok_of_not_thrown
    (w.signTransaction ⟨env.contractAddress, data, gas, gasPrice, nonce, some (toString b)⟩
      env.privateKey)
    (hok (.signTransaction ⟨env.contractAddress, data, gas, gasPrice, nonce, some (toString b)⟩
      env.privateKey))
  obtain ⟨hash, hhash⟩ := ok_of_not_thrown (w.sendSignedTransaction raw)
    (hok (.sendSignedTransaction raw))
  refine ⟨gas, gasPrice, data, nonce, raw, hash, hgas, hprice, hdata, hnonce, hraw, hhash, ?_⟩
  unfold payBillTry
  refine step_eq _ _ _ _ _ _ hb ?_
  rw [if_neg hpos]
  refine step_eq _ _ _ _ _ _ hu ?_
  refine step_eq _ _ _ _ _ _ hgas ?_
  refine step_eq _ _ _ _ _ _ hprice ?_
  refine step_eq _ _ _ _ _ _ hdata ?_
  refine step_eq _ _ _ _ _ _ hnonce ?_
  refine step_eq _ _ _ _ _ _ hraw ?_
  exact step_eq _ _ _ _ _ _ hhash rfl

theorem payBillTry_upto_estimate (env : Env) (w : Web3) (b : Nat) (u : Unit)
    (hb : w.getBill env.account = .ok b) (hpos : b ≠ 0) (hu : w.methods .payBill = .ok u) :
    (payBillTry env w).1.take 3 =
      [.getBill env.account, .methods .payBill,
        .estimateGas .payBill env.account (some b)] := by
  unfold payBillTry
  rw [hb, step_ok]
  simp only [if_neg hpos]
  rw [hu, step_ok]
  obtain ⟨rest, hrest⟩ := step_calls (.estimateGas .payBill env.account (some b))
    (w.estimateGas .payBill env.account (some b)) (fun gas =>
      step .getGasPrice w.getGasPrice fun gasPrice =>
      step (.encodeABI .payBill) (w.encodeABI .payBill) fun data =>
      step (.getTransactionCount env.account "latest")
        (w.getTransactionCount env.account "latest") fun nonce =>
      step (.signTransaction
          ⟨env.contractAddress, data, gas, gasPrice, nonce, some (toString b)⟩ env.privateKey)
        (w.signTransaction
          ⟨env.contractAddress, data, gas, gasPrice, nonce, some (toString b)⟩ env.privateKey)
        fun rawTransaction =>
      step (.sendSignedTransaction rawTransaction)
        (w.sendSignedTransaction rawTransaction) fun transactionHash =>
      (([] : List Web3Call), (Except.ok (some ⟨"Bill Payment", toString b, transactionHash⟩) :
        Except String (Option Transaction))))
  simp only [hrest]
  rfl

theorem payBillTry_head (env : Env) (w : Web3) :
    (payBillTry env w).1.head? = some (.getBill env.account) := by
  unfold payBillTry
  exact step_head _ _ _

theorem step_all {α β : Type} (Q : Web3Call → Prop) (R : β → Prop) (c : Web3Call)
    (r : Except String α) (k : α → List Web3Call × Except String β) (hc : Q c)
    (hk : ∀ a, r = .ok a → (∀ x ∈ (k a).1, Q x) ∧ ∀ b, (k a).2 = .ok b → R b) :
    (∀ x ∈ (step c r k).1, Q x) ∧ ∀ b, (step c r k).2 = .ok b → R b := by
  cases r with
  | error e =>
    rw [step_error]
    constructor
    · intro x hx
      simp only [List.mem_singleton] at hx
      exact hx ▸ hc
    · intro b hb
      simp at hb
  | ok a =>
    rw [step_ok]
    obtain ⟨h1, h2⟩ := hk a rfl
    constructor
    · intro x hx
      simp only [List.mem_cons] at hx
      rcases hx with hx | hx
      · exact hx ▸ hc
      · exact h1 x hx
    · exact h2

theorem payBillTry_amount (env : Env) (w : Web3) (b : Nat)
    (hb : w.getBill env.account = .ok b) :
    (∀ x ∈ (payBillTry env w).1,
      (∀ m a v, x = .estimateGas m a v → v = some b) ∧
      (∀ tx key, x = .signTransaction tx key → tx.value = some (toString b))) ∧
    ∀ r, (payBillTry env w).2 = .ok r →
      ∀ t, r = some t → ∃ hash, t = ⟨"Bill Payment", toString b, hash⟩ := by
  unfold payBillTry
  refine step_all _ _ _ _ _ (by simp) fun billAmount hbill => ?_
  rw [hb] at hbill
  cases hbill
  split
  · simp
  refine step_all _ _ _ _ _ (by simp) fun _ _ => ?_
  refine step_all _ _ _ _ _ (by simp) fun _ _ => ?_
  refine step_all _ _ _ _ _ (by simp) fun _ _ => ?_
  refine step_all _ _ _ _ _ (by simp) fun _ _ => ?_
  refine step_all _ _ _ _ _ (by simp) fun _ _ => ?_
  refine step_all _ _ _ _ _ (by simp) fun _ _ => ?_
  refine step_all _ _ _ _ _ (by simp) fun _ _ => ?_
  refine ⟨by simp, ?_⟩
  intro r hr t ht
  simp only [Except.ok.injEq] at hr
  subst hr
  simp only [Option.some.injEq] at ht
  subst ht
  exact ⟨_, rfl⟩

theorem payBill_calls (env : Env) (w : Web3) (s : Session) :
    (payBill env w s).calls = (payBillTry env w).1 := by
  unfold payBill
  rcases payBillTry env w with ⟨calls, _ | _ | _⟩ <;> rfl

theorem payBill_history (env : Env) (w : Web3) (s : Session) :
    (payBill env w s).state.transactions =
      match (payBillTry env w).2 with
      | .ok (some t) => addTransaction t s.transactions
      | _ => s.transactions := by
  unfold payBill
  rcases payBillTry env w with ⟨calls, _ | _ | _⟩ <;> rfl

theorem payBill_reported (env : Env) (w : Web3) (s : Session) :
    (payBill env w s).reported = thrownBy (payBillTry env w).2 := by
  unfold payBill
  rcases payBillTry env w with ⟨calls, _ | _ | _⟩ <;> rfl

/-- C7: two sessions that differ only in the cached `bill` make `payBill`
perform the same library calls, report the same and end with the same history.
The first call of `payBill` is `getBill`; when it returns `b`, every gas
estimate is asked for the value `b`, every transaction signed carries the
value `b`, and the entry recorded, if any, has the amount `b`.  When `b` is
not zero the gas estimate for the value `b` is the third call, once the method
object is built; and when no call throws, `payBill` estimates gas for `b`,
signs a transaction of value `b`, submits it and records the amount `b`. -/
theorem payBill_ignores_cached_bill (env : Env) (w : Web3) (s1 s2 : Session)
    (hE : s1.energy = s2.energy) (hL : s1.loading = s2.loading)
    (hT : s1.transactions = s2.transactions) :
    (payBill env w s1).calls = (payBill env w s2).calls ∧
    (payBill env w s1).reported = (payBill env w s2).reported ∧
    (payBill env w s1).state.transactions = (payBill env w s2).state.transactions ∧
    (payBill env w s1).state = { (payBill env w s2).state with bill := s1.bill } ∧
    (payBill env w s1).calls.head? = some (.getBill env.account) ∧
    ∀ b, w.getBill env.account = .ok b →
      (∀ m a v, .estimateGas m a v ∈ (payBill env w s1).calls → v = some b) ∧
      (∀ tx key, .signTransaction tx key ∈ (payBill env w s1).calls →
        tx.value = some (toString b)) ∧
      ((payBill env w s1).state.transactions = s1.transactions ∨
        ∃ hash, (payBill env w s1).state.transactions
          = addTransaction ⟨"Bill Payment", toString b, hash⟩ s1.transactions) ∧
      (b ≠ 0 → ∀ u, w.methods .payBill = .ok u →
        (payBill env w s1).calls.take 3 =
          [.getBill env.account, .methods .payBill,
            .estimateGas .payBill env.account (some b)]) ∧
      (b ≠ 0 → (∀ c, w.thrown c = none) →
        ∃ gas gasPrice data nonce raw hash,
          w.estimateGas .payBill env.account (some b) = .ok gas ∧
          w.getGasPrice = .ok gasPrice ∧
          w.encodeABI .payBill = .ok data ∧
          w.getTransactionCount env.account "latest" = .ok nonce ∧
          w.signTransaction
            ⟨env.contractAddress, data, gas, gasPrice, nonce, some (toString b)⟩
            env.privateKey = .ok raw ∧
          w.sendSignedTransaction raw = .ok hash ∧
          (payBill env w s1).calls =
            [.getBill env.account, .methods .payBill,
              .estimateGas .payBill env.account (some b), .getGasPrice, .encodeABI .payBill,
              .getTransactionCount env.account "latest",
              .signTransaction
                ⟨env.contractAddress, data, gas, gasPrice, nonce, some (toString b)⟩
                env.privateKey,
              .sendSignedTransaction raw] ∧
          (payBill env w s1).state.transactions
            = addTransaction ⟨"Bill Payment", toString b, hash⟩ s1.transactions) := by
  refine ⟨?_, ?_, ?_, ?_, ?_, ?_⟩
  · rw [payBill_calls, payBill_calls]
  · rw [payBill_reported, payBill_reported]
  · rw [payBill_history, payBill_history, hT]
  · obtain ⟨e1, b1, l1, t1⟩ := s1
    obtain ⟨e2, b2, l2, t2⟩ := s2
    simp only at hE hL hT
    subst hE hL hT
    unfold payBill
    rcases payBillTry env w with ⟨calls, _ | _ | _⟩ <;> rfl
  · rw [payBill_calls]
    exact payBillTry_head env w
  · intro b hb
    obtain ⟨hcalls, hres⟩ := payBillTry_amount env w b hb
    rw [payBill_calls, payBill_history]
    refine ⟨fun m a v hx => (hcalls _ hx).1 m a v rfl,
      fun tx key hx => (hcalls _ hx).2 tx key rfl, ?_, ?_, ?_⟩
    · rcases hr : (payBillTry env w).2 with e | _ | t
      · exact Or.inl rfl
      · exact Or.inl rfl
      · obtain ⟨hash, ht⟩ := hres _ hr t rfl
        exact Or.inr ⟨hash, by rw [ht]⟩
    · intro hpos u hu
      exact payBillTry_upto_estimate env w b u hb hpos hu
    · intro hpos hok
      obtain ⟨gas, gasPrice, data, nonce, raw, hash, h1, h2, h3, h4, h5, h6, hfull⟩ :=
        payBillTry_full env w b hok hb hpos
      exact ⟨gas, gasPrice, data, nonce, raw, hash, h1, h2, h3, h4, h5, h6,
        by rw [hfull], by rw [hfull]⟩

theorem payBill_ignores_cached_bill_witness :
    (payBill exampleEnv (happyWeb3 500 "0xdef") ⟨none, some 7, false, []⟩).calls
      = (payBill exampleEnv (happyWeb3 500 "0xdef") ⟨none, none, false, []⟩).calls ∧
    (payBill exampleEnv (happyWeb3 500 "0xdef") ⟨none, some 7, false, []⟩).state.transactions
      = (payBill exampleEnv (happyWeb3 500 "0xdef") ⟨none, none, false, []⟩).state.transactions ∧
    (payBill exampleEnv (happyWeb3 500 "0xdef") ⟨none, some 7, false, []⟩).calls.head?
      = some (.getBill "0xA1") ∧
    (payBill exampleEnv (happyWeb3 500 "0xdef") ⟨none, some 7, false, []⟩).calls.take 3
      = [.getBill "0xA1", .methods .payBill, .estimateGas .payBill "0xA1" (some 500)] ∧
    ∃ gas gasPrice data nonce raw hash,
      (happyWeb3 500 "0xdef").estimateGas .payBill "0xA1" (some 500) = .ok gas ∧
      (happyWeb3 500 "0xdef").getGasPrice = .ok gasPrice ∧
      (happyWeb3 500 "0xdef").encodeABI .payBill = .ok data ∧
      (happyWeb3 500 "0xdef").getTransactionCount "0xA1" "latest" = .ok nonce ∧
      (happyWeb3 500 "0xdef").signTransaction
        ⟨"0xC0", data, gas, gasPrice, nonce, some (toString 500)⟩ "0xKEY" = .ok raw ∧
      (happyWeb3 500 "0xdef").sendSignedTransaction raw = .ok hash ∧
      (payBill exampleEnv (happyWeb3 500 "0xdef") ⟨none, some 7, false, []⟩).calls =
        [.getBill "0xA1", .methods .payBill, .estimateGas .payBill "0xA1" (some 500),
          .getGasPrice, .encodeABI .payBill, .getTransactionCount "0xA1" "latest",
          .signTransaction ⟨"0xC0", data, gas, gasPrice, nonce, some (toString 500)⟩ "0xKEY",
          .sendSignedTransaction raw] ∧
      (payBill exampleEnv (happyWeb3 500 "0xdef") ⟨none, some 7, false, []⟩).state.transactions
        = addTransaction ⟨"Bill Payment", toString 500, hash⟩ [] :=
  ⟨(payBill_ignores_cached_bill exampleEnv (happyWeb3 500 "0xdef") ⟨none, some 7, false, []⟩
      ⟨none, none, false, []⟩ rfl rfl rfl).1,
    (payBill_ignores_cached_bill exampleEnv (happyWeb3 500 "0xdef") ⟨none, some 7, false, []⟩
      ⟨none, none, false, []⟩ rfl rfl rfl).2.2.1,
    (payBill_ignores_cached_bill exampleEnv (happyWeb3 500 "0xdef") ⟨none, some 7, false, []⟩
      ⟨none, none, false, []⟩ rfl rfl rfl).2.2.2.2.1,
    ((payBill_ignores_cached_bill exampleEnv (happyWeb3 500 "0xdef") ⟨none, some 7, false, []⟩
      ⟨none, none, false, []⟩ rfl rfl rfl).2.2.2.2.2 500 rfl).2.2.2.1 (by decide) () rfl,
    ((payBill_ignores_cached_bill exampleEnv (happyWeb3 500 "0xdef") ⟨none, some 7, false, []⟩
      ⟨none, none, false, []⟩ rfl rfl rfl).2.2.2.2.2 500 rfl).2.2.2.2 (by decide)
      (fun c => by cases c <;> rfl)⟩

/-! ## A full session -/

theorem step_result {α β : Type} (c : Web3Call) (r : Except String α)
    (k : α → List Web3Call × Except String β) (h : thrownBy r = none) :
    ∃ a, r = .ok a ∧ (step c r k).2 = (k a).2 := by
  obtain ⟨a, ha⟩ := ok_of_not_thrown r h
  exact ⟨a, ha, by rw [ha, step_ok]⟩

theorem sendEnergyTry_succeeds (env : Env) (w : Web3) (energy : JSNumber)
    (hok : ∀ c, w.thrown c = none) :
    ∃ raw hash, w.sendSignedTransaction raw = .ok hash ∧
      (sendEnergyTry env w energy).2 = .ok ⟨"Energy Stored", numberToString env energy, hash⟩ := by
  unfold sendEnergyTry
  obtain ⟨_, -, h1⟩ := step_result _ _ _ (hok (.methods (.storeEnergy (mathFloor energy))))
  rw [h1]
  obtain ⟨gas, -, h2⟩ := step_result _ _ _
    (hok (.estimateGas (.storeEnergy (mathFloor energy)) env.account none))
  rw [h2]
  obtain ⟨gasPrice, -, h3⟩ := step_result _ _ _ (hok .getGasPrice)
  rw [h3]
  obtain ⟨data, -, h4⟩ := step_result _ _ _ (hok (.encodeABI (.storeEnergy (mathFloor energy))))
  rw [h4]
  obtain ⟨nonce, -, h5⟩ := step_result _ _ _ (hok (.getTransactionCount env.account "latest"))
  rw [h5]
  obtain ⟨raw, -, h6⟩ := step_result _ _ _
    (hok (.signTransaction ⟨env.contractAddress, data, gas, gasPrice, nonce, none⟩
      env.privateKey))
  rw [h6]
  obtain ⟨hash, hsend, h7⟩ := step_result _ _ _ (hok (.sendSignedTransaction raw))
  rw [h7]
  exact ⟨raw, hash, hsend, rfl⟩

theorem payBillTry_succeeds (env : Env) (w : Web3) (b : Nat)
    (hok : ∀ c, w.thrown c = none) (hb : w.getBill env.account = .ok b) (hpos : b ≠ 0) :
    ∃ raw hash, w.sendSignedTransaction raw = .ok hash ∧
      (payBillTry env w).2 = .ok (some ⟨"Bill Payment", toString b, hash⟩) := by
  unfold payBillTry
  rw [hb, step_ok]
  simp only [hpos, if_false]
  obtain ⟨_, -, h1⟩ := step_result _ _ _ (hok (.methods .payBill))
  rw [h1]
  obtain ⟨gas, -, h2⟩ := step_result _ _ _ (hok (.estimateGas .payBill env.account (some b)))
  rw [h2]
  obtain ⟨gasPrice, -, h3⟩ := step_result _ _ _ (hok .getGasPrice)
  rw [h3]
  obtain ⟨data, -, h4⟩ := step_result _ _ _ (hok (.encodeABI .payBill))
  rw [h4]
  obtain ⟨nonce, -, h5⟩ := step_result _ _ _ (hok (.getTransactionCount env.account "latest"))
  rw [h5]
  obtain ⟨raw, -, h6⟩ := step_result _ _ _
    (hok (.signTransaction ⟨env.contractAddress, data, gas, gasPrice, nonce, some (toString b)⟩
      env.privateKey))
  rw [h6]
  obtain ⟨hash, hsend, h7⟩ := step_result _ _ _ (hok (.sendSignedTransaction raw))
  rw [h7]
  exact ⟨raw, hash, hsend, rfl⟩

theorem sendEnergyData_state (env : Env) (w : Web3) (s : Session) (energy : JSNumber)
    (t : Transaction) (hE : s.energy = some energy) (ht : energy.truthy = true)
    (hres : (sendEnergyTry env w energy).2 = .ok t) :
    (sendEnergyData env w s).state
      = { s with transactions := addTransaction t s.transactions, loading := false } := by
  unfold sendEnergyData
  rw [hE]
  simp only [ht, Bool.not_true, Bool.false_eq_true, if_false]
  rcases htr : sendEnergyTry env w energy with ⟨calls, r⟩
  rw [htr] at hres
  simp only at hres
  subst hres
  rfl

theorem numberToString_17 (env : Env) : numberToString env (.fin 17) = "17" := by
  have hden : (17 : ℚ).den = 1 := rfl
  have hnum : (17 : ℚ).num = 17 := rfl
  have hsmall : (1 = 1 ∧ Int.natAbs 17 < 2 ^ 53) := by decide
  have hstr : toString (17 : ℤ) = "17" := by decide
  simp only [numberToString, hden, hnum, hsmall, if_true, hstr, and_self]

/-- C8: from the initial session, a telemetry body whose first `power` sample
has the value `17.8` sets the reading to 17; `sendEnergyData` with no failing
call and receipt hash `0xabc` records the energy entry; `fetchBill` answered
500 sets the bill to 500; `payBill` answered 500, with no failing call and
receipt hash `0xdef`, puts the payment entry on top; the reading is still 17
and `loading` is clear at the end. -/
theorem end_to_end_session (env : Env) (status : Nat) (w1 w2 w3 : Web3)
    (hok1 : ∀ c, w1.thrown c = none)
    (hash1 : ∀ raw, w1.sendSignedTransaction raw = .ok "0xabc")
    (bill2 : w2.getBill env.account = .ok 500)
    (hok3 : ∀ c, w3.thrown c = none)
    (bill3 : w3.getBill env.account = .ok 500)
    (hash3 : ∀ raw, w3.sendSignedTransaction raw = .ok "0xdef")
    (s1 s2 s3 s4 : Session)
    (h1 : s1 = (fetchEnergyData
      (.ok ⟨status, .ok (.obj [("power", .arr [.obj [("value", .str "17.8")]])])⟩)
      Session.init).state)
    (h2 : s2 = (sendEnergyData env w1 s1).state)
    (h3 : s3 = (fetchBill env w2 s2).state)
    (h4 : s4 = (payBill env w3 s3).state) :
    s1 = ⟨some (.fin 17), none, false, []⟩ ∧
    s2 = ⟨some (.fin 17), none, false, [⟨"Energy Stored", "17", "0xabc"⟩]⟩ ∧
    s3 = ⟨some (.fin 17), some 500, false, [⟨"Energy Stored", "17", "0xabc"⟩]⟩ ∧
    s4 = ⟨some (.fin 17), some 500, false,
      [⟨"Bill Payment", "500", "0xdef"⟩, ⟨"Energy Stored", "17", "0xabc"⟩]⟩ := by
  have e1 : s1 = ⟨some (.fin 17), none, false, []⟩ := by
    rw [h1, fetchEnergyData_first_sample status [("power", .arr [.obj [("value", .str "17.8")]])]
      [("value", .str "17.8")] [] (.str "17.8") Session.init rfl rfl]
    simp [toNumber, floor_178, Session.init]
  have e2 : s2 = ⟨some (.fin 17), none, false, [⟨"Energy Stored", "17", "0xabc"⟩]⟩ := by
    obtain ⟨raw, hash, hsend, hres⟩ := sendEnergyTry_succeeds env w1 (.fin 17) hok1
    rw [hash1 raw] at hsend
    cases hsend
    rw [h2, e1, sendEnergyData_state env w1 _ (.fin 17) _ rfl (by simp [JSNumber.truthy]) hres,
      numberToString_17]
    rfl
  have e3 : s3 = ⟨some (.fin 17), some 500, false, [⟨"Energy Stored", "17", "0xabc"⟩]⟩ := by
    rw [h3, e2]
    simp [fetchBill, bill2]
  have e4 : s4 = ⟨some (.fin 17), some 500, false,
      [⟨"Bill Payment", "500", "0xdef"⟩, ⟨"Energy Stored", "17", "0xabc"⟩]⟩ := by
    obtain ⟨raw, hash, hsend, hres⟩ := payBillTry_succeeds env w3 500 hok3 bill3 (by decide)
    rw [hash3 raw] at hsend
    cases hsend
    rcases htr : payBillTry env w3 with ⟨calls, r⟩
    rw [htr] at hres
    simp only at hres
    subst hres
    rw [h4, e3]
    simp only [payBill, htr]
    rfl
  exact ⟨e1, e2, e3, e4⟩

theorem happyWeb3_never_throws (billAmount : Nat) (transactionHash : String) (c : Web3Call) :
    (happyWeb3 billAmount transactionHash).thrown c = none := by
  cases c <;> rfl

theorem end_to_end_session_witness :
    (payBill exampleEnv (happyWeb3 500 "0xdef")
      (fetchBill exampleEnv (happyWeb3 500 "0x0")
        (sendEnergyData exampleEnv (happyWeb3 0 "0xabc")
          (fetchEnergyData (sample (.str "17.8")) Session.init).state).state).state).state
      = ⟨some (.fin 17), some 500, false,
        [⟨"Bill Payment", "500", "0xdef"⟩, ⟨"Energy Stored", "17", "0xabc"⟩]⟩ :=
  (end_to_end_session exampleEnv 200 (happyWeb3 0 "0xabc") (happyWeb3 500 "0x0")
    (happyWeb3 500 "0xdef") (happyWeb3_never_throws 0 "0xabc") (fun _ => rfl) rfl
    (happyWeb3_never_throws 500 "0xdef") rfl (fun _ => rfl) _ _ _ _ rfl rfl rfl rfl).2.2.2

/-! ## One workflow at a time -/

theorem settle_loading (env : Env) (w : Web3) (p : Pending) (s : Session) :
    (p.settle env w s).loading = false := by
  cases p with
  | sendEnergyData energy => simp only [Pending.settle]; split <;> rfl
  | fetchBill => simp only [Pending.settle]; split <;> rfl
  | payBill => simp only [Pending.settle]; split <;> rfl

theorem fetchEnergyData_loading (t : Except String Response) (s : Session) :
    (fetchEnergyData t s).state.loading = s.loading := by
  unfold fetchEnergyData
  repeat' split
  all_goals rfl

theorem exclusive_invoke (b : Button) (page : Page) (hl : page.session.loading = false)
    (hi : page.inflight = []) : Exclusive (invoke b page) := by
  cases b with
  | sendEnergyData =>
    unfold invoke
    simp only
    split
    · exact Or.inr ⟨hl, hi⟩
    · split
      · exact Or.inr ⟨hl, hi⟩
      · exact Or.inl ⟨rfl, by simp [hi]⟩
  | fetchBill => exact Or.inl ⟨rfl, by simp [invoke, hi]⟩
  | payBill => exact Or.inl ⟨rfl, by simp [invoke, hi]⟩

theorem exclusive_render_click (env : Env) (page : Page) (b : Button) (h : Exclusive page) :
    Exclusive ((page.next env .render).next env (.click b)) := by
  simp only [Page.next, click]
  rcases h with ⟨hl, hn⟩ | ⟨hl, hi⟩
  · rw [if_pos hl]; exact Or.inl ⟨hl, hn⟩
  · rw [if_neg (by simp [hl])]
    exact exclusive_invoke b _ hl hi

theorem exclusive_other (env : Env) (page : Page) (ev : Event) (h : Exclusive page)
    (hclick : ∀ b, ev ≠ .click b) (hcall : ∀ b, ev ≠ .call b) :
    Exclusive (page.next env ev) := by
  cases ev with
  | click b => exact absurd rfl (hclick b)
  | call b => exact absurd rfl (hcall b)
  | render => exact h
  | settle i w =>
    simp only [Page.next]
    split
    · exact h
    · rename_i p hp
      refine Or.inr ⟨settle_loading env w p _, ?_⟩
      rcases h with ⟨_, hn⟩ | ⟨_, hi⟩
      · match hfl : page.inflight, hn with
        | [q], _ =>
          rw [hfl] at hp
          cases i with
          | zero => rfl
          | succ j => simp at hp
      · rw [hi] at hp; simp at hp
  | telemetry t =>
    simp only [Page.next]
    rcases h with ⟨hl, hn⟩ | ⟨hl, hi⟩
    · exact Or.inl ⟨by rw [fetchEnergyData_loading]; exact hl, hn⟩
    · exact Or.inr ⟨by rw [fetchEnergyData_loading]; exact hl, hi⟩

theorem exclusive_run (env : Env) (n : Nat) :
    ∀ (evs : List Event) (page : Page), evs.length ≤ n → rendersBeforeClicks evs = true →
      Exclusive page → Exclusive (evs.foldl (Page.next env) page) := by
  induction n with
  | zero =>
    intro evs page hlen _ h
    have hnil : evs = [] := List.length_eq_zero.mp (Nat.le_zero.mp hlen)
    subst hnil
    exact h
  | succ n ih =>
    intro evs page hlen hev h
    match evs, hlen, hev with
    | [], _, _ => exact h
    | .click b :: rest, _, hev => simp [rendersBeforeClicks] at hev
    | .call b :: rest, _, hev => simp [rendersBeforeClicks] at hev
    | .settle i w :: rest, hlen, hev =>
      simp only [List.foldl_cons]
      refine ih rest _ (by simpa using hlen) (by simpa [rendersBeforeClicks] using hev) ?_
      exact exclusive_other env page _ h (fun _ => by simp) (fun _ => by simp)
    | .telemetry t :: rest, hlen, hev =>
      simp only [List.foldl_cons]
      refine ih rest _ (by simpa using hlen) (by simpa [rendersBeforeClicks] using hev) ?_
      exact exclusive_other env page _ h (fun _ => by simp) (fun _ => by simp)
    | [.render], _, _ => exact h
    | .render :: .click b :: rest, hlen, hev =>
      simp only [List.foldl_cons]
      refine ih rest _ (by simp at hlen; omega) (by simpa [rendersBeforeClicks] using hev) ?_
      exact exclusive_render_click env page b h
    | .render :: .call b :: rest, hlen, hev =>
      simp only [List.foldl_cons]
      refine ih (.call b :: rest) _ (by simpa using hlen)
        (by simpa [rendersBeforeClicks] using hev) ?_
      exact h
    | .render :: .render :: rest, hlen, hev =>
      simp only [List.foldl_cons]
      refine ih (.render :: rest) _ (by simpa using hlen)
        (by simpa [rendersBeforeClicks] using hev) ?_
      exact h
    | .render :: .settle i w :: rest, hlen, hev =>
      rw [List.foldl_cons]
      refine ih (.settle i w :: rest) _ (by simpa using hlen)
        (by simpa [rendersBeforeClicks] using hev) ?_
      exact h
    | .render :: .telemetry t :: rest, hlen, hev =>
      rw [List.foldl_cons]
      refine ih (.telemetry t :: rest) _ (by simpa using hlen)
        (by simpa [rendersBeforeClicks] using hev) ?_
      exact h

/-- C9 as stated fails: the handlers do not look at `loading`, and a button is
disabled only by the next render.  With `payBill` in flight and `loading` set,
two further clicks that arrive before the page is rendered again start two
more workflows; so does a direct call of `fetchBill` after the render; and
`payBill` run on a session whose `loading` is set still goes to the library. -/
theorem direct_call_overlaps :
    (Page.after exampleEnv [.click .payBill]).session.loading = true ∧
    (Page.after exampleEnv [.click .payBill]).inflight = [.payBill] ∧
    (Page.after exampleEnv [.click .payBill, .click .fetchBill, .click .payBill]).inflight
      = [.payBill, .fetchBill, .payBill] ∧
    (Page.after exampleEnv [.click .payBill, .render, .call .fetchBill]).inflight
      = [.payBill, .fetchBill] ∧
    (payBill exampleEnv (happyWeb3 0 "0xdef") ⟨none, none, true, []⟩).calls
      = [.getBill "0xA1"] := by
  refine ⟨rfl, rfl, rfl, rfl, rfl⟩

/-- C9, amended: no handler reads `loading`: whatever its value, `fetchBill`
and `payBill` go to the library, and a handler that is run starts a workflow
(`sendEnergyData` when the reading is truthy).  The flag acts only through
`disabled={loading}` on the three buttons as last rendered: in every run of
clicks, renders, settlements and telemetry results in which each click lands
on a page rendered just before it, at most one workflow is in flight at any
point, and one is in flight exactly when `loading` is set. -/
theorem clicks_are_exclusive (env : Env) :
    (∀ w s, (fetchBill env w s).calls = [.getBill env.account] ∧
      (payBill env w s).calls.head? = some (.getBill env.account)) ∧
    (∀ page : Page, (invoke .fetchBill page).inflight = page.inflight ++ [.fetchBill] ∧
      (invoke .payBill page).inflight = page.inflight ++ [.payBill] ∧
      ∀ energy, page.rendered.energy = some energy → energy.truthy = true →
        (invoke .sendEnergyData page).inflight = page.inflight ++ [.sendEnergyData energy]) ∧
    ∀ evs : List Event, rendersBeforeClicks evs = true →
      (Page.after env evs).inflight.length ≤ 1 ∧
      ((Page.after env evs).session.loading = true ↔
        (Page.after env evs).inflight.length = 1) := by
  refine ⟨?_, ?_, ?_⟩
  · intro w s
    constructor
    · unfold fetchBill
      cases w.getBill env.account <;> rfl
    · rw [payBill_calls]
      exact payBillTry_head env w
  · intro page
    refine ⟨rfl, rfl, ?_⟩
    intro energy hE ht
    simp [invoke, hE, ht]
  · intro evs hev
    have h : Exclusive (Page.after env evs) :=
      exclusive_run env evs.length evs Page.init (Nat.le_refl _) hev (Or.inr ⟨rfl, rfl⟩)
    rcases h with ⟨hl, hn⟩ | ⟨hl, hi⟩
    · exact ⟨by omega, by simp [hl, hn]⟩
    · exact ⟨by simp [hi], by simp [hl, hi]⟩

theorem clicks_are_exclusive_witness :
    rendersBeforeClicks [.render, .click .payBill, .render, .click .fetchBill] = true ∧
    (Page.after exampleEnv
      [.render, .click .payBill, .render, .click .fetchBill]).inflight.length ≤ 1 ∧
    (invoke .sendEnergyData ⟨readingSession, readingSession, [.payBill]⟩).inflight
      = [.payBill, .sendEnergyData (.fin 17)] :=
  ⟨by decide,
    ((clicks_are_exclusive exampleEnv).2.2
      [.render, .click .payBill, .render, .click .fetchBill] (by decide)).1,
    ((clicks_are_exclusive exampleEnv).2.1 ⟨readingSession, readingSession, [.payBill]⟩).2.2
      (.fin 17) rfl (by decide)⟩

/-- Calling a handler on a freshly rendered page and letting it settle is the
function run in one go. -/
theorem settle_after_invoke (env : Env) (w : Web3) (s : Session) :
    (Page.next env (invoke .payBill ⟨s, s, []⟩) (.settle 0 w)).session
      = (payBill env w s).state ∧
    (Page.next env (invoke .fetchBill ⟨s, s, []⟩) (.settle 0 w)).session
      = (fetchBill env w s).state ∧
    (truthy s.energy = true →
      (Page.next env (invoke .sendEnergyData ⟨s, s, []⟩) (.settle 0 w)).session
        = (sendEnergyData env w s).state) := by
  refine ⟨?_, ?_, ?_⟩
  · simp only [invoke, Page.next, List.nil_append, List.get?_cons_zero, Pending.settle, payBill]
    rcases payBillTry env w with ⟨calls, _ | _ | _⟩ <;> rfl
  · simp only [invoke, Page.next, List.nil_append, List.get?_cons_zero, Pending.settle,
      fetchBill]
    cases w.getBill env.account <;> rfl
  · intro ht
    cases hE : s.energy with
    | none => simp [truthy, hE] at ht
    | some energy =>
      simp only [truthy, hE] at ht
      simp only [invoke, hE, ht, Page.next, List.nil_append, List.get?_cons_zero,
        Pending.settle, sendEnergyData, Bool.not_true, Bool.false_eq_true, if_false]
      rcases sendEnergyTry env w energy with ⟨calls, _ | _⟩ <;> rfl

end App
